import Mathlib

/-!
# Agent Tool Execution Engine — a shallow embedding

This file embeds the runtime core of the `synthetic-agora` repository
(`src/agora/runtime/action_tracker.py`, `tool_registry.py`, `tool_executor.py`)
into Lean 4 and proves properties of the embedded definitions.

Python's dynamically-typed values are modelled by the inductive type `Agora.Value`
(JSON-like: `None`, booleans, integers, strings, lists, dicts).  Python dicts are
modelled as association lists with unique keys preserved in insertion order, which
matches CPython dict semantics for the operations the engine uses (`in`, `[] =`,
`.get`, iteration order).  Backend service functions (the `agora.platform.services`
module) touch a real database and are out of the engine's scope; they are modelled
as opaque functions `ServiceFn` from a keyword-argument dict to `Except String Value`,
where `.error msg` models the function raising an exception with message `msg`
(the transactional session handle that the executor also passes is invisible to
every property proved here and is omitted from the modelled signature).
-/

namespace Agora

/-- A dynamically-typed Python value (the subset the engine manipulates):
`None`, `bool`, `int`, `str`, `list`, and `dict` (as an insertion-ordered
association list with unique keys). -/
inductive Value where
  | null : Value
  | bool (b : Bool) : Value
  | int (n : Int) : Value
  | str (s : String) : Value
  | list (items : List Value) : Value
  | dict (fields : List (String × Value)) : Value

mutual

/-- Structural equality of values (Python `==` restricted to this value universe;
dicts compare as ordered association lists, which coincides with Python dict
equality whenever the engine compares values, since it only ever compares
scalars there). -/
def Value.beq : Value → Value → Bool
  | .null, .null => true
  | .bool a, .bool b => a == b
  | .int a, .int b => a == b
  | .str a, .str b => a == b
  | .list a, .list b => Value.beqList a b
  | .dict a, .dict b => Value.beqFields a b
  | _, _ => false

/-- Elementwise equality of value lists. -/
def Value.beqList : List Value → List Value → Bool
  | [], [] => true
  | a :: as, b :: bs => Value.beq a b && Value.beqList as bs
  | _, _ => false

/-- Elementwise equality of dict bindings. -/
def Value.beqFields : List (String × Value) → List (String × Value) → Bool
  | [], [] => true
  | (k, v) :: as, (l, w) :: bs => k == l && Value.beq v w && Value.beqFields as bs
  | _, _ => false

end

mutual

/-- Decidable equality, by the same structural recursion as `Value.beq`
(defined directly as a definition so that the whole embedding can use `=`
in its branch conditions). -/
def Value.decEq : (a b : Value) → Decidable (a = b)
  | .null, .null => isTrue rfl
  | .bool a, .bool b =>
    if h : a = b then isTrue (h ▸ rfl) else isFalse (fun hc => h (Value.bool.inj hc))
  | .int a, .int b =>
    if h : a = b then isTrue (h ▸ rfl) else isFalse (fun hc => h (Value.int.inj hc))
  | .str a, .str b =>
    if h : a = b then isTrue (h ▸ rfl) else isFalse (fun hc => h (Value.str.inj hc))
  | .list a, .list b =>
    match Value.decEqList a b with
    | isTrue h => isTrue (h ▸ rfl)
    | isFalse h => isFalse (fun hc => h (Value.list.inj hc))
  | .dict a, .dict b =>
    match Value.decEqFields a b with
    | isTrue h => isTrue (h ▸ rfl)
    | isFalse h => isFalse (fun hc => h (Value.dict.inj hc))
  | .null, .bool _ | .null, .int _ | .null, .str _ | .null, .list _
  | .null, .dict _ | .bool _, .null | .bool _, .int _ | .bool _, .str _
  | .bool _, .list _ | .bool _, .dict _ | .int _, .null | .int _, .bool _
  | .int _, .str _ | .int _, .list _ | .int _, .dict _ | .str _, .null
  | .str _, .bool _ | .str _, .int _ | .str _, .list _ | .str _, .dict _
  | .list _, .null | .list _, .bool _ | .list _, .int _ | .list _, .str _
  | .list _, .dict _ | .dict _, .null | .dict _, .bool _ | .dict _, .int _
  | .dict _, .str _ | .dict _, .list _ => isFalse (fun hc => Value.noConfusion hc)

/-- Decidable equality of value lists. -/
def Value.decEqList : (as bs : List Value) → Decidable (as = bs)
  | [], [] => isTrue rfl
  | a :: as, b :: bs =>
    match Value.decEq a b, Value.decEqList as bs with
    | isTrue h1, isTrue h2 => isTrue (by rw [h1, h2])
    | isFalse h1, _ => isFalse (fun hc => h1 (List.cons.inj hc).1)
    | _, isFalse h2 => isFalse (fun hc => h2 (List.cons.inj hc).2)
  | [], _ :: _ => isFalse (fun hc => List.noConfusion hc)
  | _ :: _, [] => isFalse (fun hc => List.noConfusion hc)

/-- Decidable equality of dict bindings. -/
def Value.decEqFields :
    (as bs : List (String × Value)) → Decidable (as = bs)
  | [], [] => isTrue rfl
  | (k, v) :: as, (l, w) :: bs =>
    if hk : k = l then
      match Value.decEq v w, Value.decEqFields as bs with
      | isTrue h1, isTrue h2 => isTrue (by rw [hk, h1, h2])
      | isFalse h1, _ =>
        isFalse (fun hc => h1 (congrArg Prod.snd (List.cons.inj hc).1))
      | _, isFalse h2 => isFalse (fun hc => h2 (List.cons.inj hc).2)
    else isFalse (fun hc => hk (congrArg Prod.fst (List.cons.inj hc).1))
  | [], _ :: _ => isFalse (fun hc => List.noConfusion hc)
  | _ :: _, [] => isFalse (fun hc => List.noConfusion hc)

end

instance : DecidableEq Value := Value.decEq

instance : BEq Value := ⟨Value.beq⟩

/-- Lookup in an association list (first binding wins; keys are unique). -/
def alistGet? {α : Type} (l : List (String × α)) (k : String) : Option α :=
  (l.find? (fun p => p.1 = k)).map (·.2)

/-- Key membership in an association list (Python `k in d`). -/
def alistContains {α : Type} (l : List (String × α)) (k : String) : Bool :=
  l.any (fun p => p.1 = k)

/-- Python `d[k] = v`: replace the value at an existing key in place,
otherwise append the new binding at the end. -/
def alistInsert {α : Type} : List (String × α) → String → α → List (String × α)
  | [], k, v => [(k, v)]
  | (k', v') :: rest, k, v =>
    if k' = k then (k, v) :: rest else (k', v') :: alistInsert rest k v

/-- Python truthiness (`bool(v)`): `None`, `False`, `0`, `""`, `[]`, `{}`
are falsy, everything else is truthy. -/
def Value.truthy : Value → Bool
  | .null => false
  | .bool b => b
  | .int n => n != 0
  | .str s => s ≠ ""
  | .list items => !items.isEmpty
  | .dict fields => !fields.isEmpty

/-- Python `isinstance(v, dict)`. -/
def Value.isDict : Value → Bool
  | .dict _ => true
  | _ => false

/-- Python `isinstance(v, str)`. -/
def Value.isStr : Value → Bool
  | .str _ => true
  | _ => false

/-- Python `isinstance(v, list)`. -/
def Value.isList : Value → Bool
  | .list _ => true
  | _ => false

/-- Key lookup on a dict value; `none` when the key is absent or the value
is not a dict. -/
def Value.get? : Value → String → Option Value
  | .dict fields, k => alistGet? fields k
  | _, _ => none

/-- Python `d.get(k)` (absent key yields `None`).  The engine only ever calls
`.get` on values that are dicts on every reachable path; on a non-dict this
total model also yields `None` (in Python an `AttributeError` would be raised
there — inside the engine such a call can only happen inside the `try` block
of `execute_tool_call`, where it is caught and surfaced as the same kind of
failure envelope). -/
def Value.get (v : Value) (k : String) : Value :=
  (v.get? k).getD .null

/-- Python `d.get(k, default)`. -/
def Value.getOr (v : Value) (k : String) (d : Value) : Value :=
  (v.get? k).getD d

/-- Python `k in d` on a dict value. -/
def Value.hasKey (v : Value) (k : String) : Bool :=
  match v with
  | .dict fields => alistContains fields k
  | _ => false

/-- The bindings of a dict value (empty for non-dicts). -/
def Value.dfields : Value → List (String × Value)
  | .dict fields => fields
  | _ => []

/-- The items of a list value (empty for non-lists). -/
def Value.items : Value → List Value
  | .list items => items
  | _ => []

/-- The underlying string of a string value (the engine reads it only after
an `isinstance(v, str)` check, so the junk value for non-strings is unreachable). -/
def Value.asStr : Value → String
  | .str s => s
  | _ => ""

/-- The last `n` elements of a list (Python `l[-n:]` for `n > 0`). -/
def lastN {α : Type} (n : Nat) (l : List α) : List α :=
  l.drop (l.length - n)

/-- Python `d.get(k)` on a dict held as an association list. -/
def dictGet (l : List (String × Value)) (k : String) : Value :=
  (alistGet? l k).getD .null

/-!
## `action_tracker.py` — `ActionRecord` and `ActionTracker`
-/

/-- One recorded invocation (`ActionRecord`, action_tracker.py lines 12-24).
`result` is the normalized response envelope, `none` modelling Python `None`;
`timestamp` is an abstract monotone clock standing in for `datetime.now()`. -/
structure ActionRecord where
  agent_username : String
  tool_name : String
  parameters : List (String × Value)
  result : Option Value := none
  timestamp : Nat
deriving DecidableEq

/-- Python truthiness of `action.result` (`None` and the empty dict are falsy). -/
def ActionRecord.resultTruthy (a : ActionRecord) : Bool :=
  match a.result with
  | none => false
  | some v => v.truthy

/-- `action.result.get(k)`.  Evaluated by the source only behind an
`action.result and ...` truthiness guard, so the `none` case never feeds a
reachable branch. -/
def ActionRecord.resultGet (a : ActionRecord) (k : String) : Value :=
  match a.result with
  | none => .null
  | some v => v.get k

/-- `action.result.get(k, default)`, same reachability remark as `resultGet`. -/
def ActionRecord.resultGetOr (a : ActionRecord) (k : String) (d : Value) : Value :=
  match a.result with
  | none => d
  | some v => v.getOr k d

/-- Per-agent history log (`ActionTracker`, one `_actions` list). -/
structure ActionTracker where
  actions : List ActionRecord := []
deriving DecidableEq

/-- `ActionTracker.record_action` (lines 33-37): append one record. -/
def ActionTracker.record_action (t : ActionTracker) (agent_username tool_name : String)
    (parameters : List (String × Value)) (result : Option Value) (ts : Nat) : ActionTracker :=
  { actions := t.actions ++
      [{ agent_username := agent_username, tool_name := tool_name,
         parameters := parameters, result := result, timestamp := ts }] }

/-- The inner `for item in data` loop of `resolve_post_id_by_title`
(action_tracker.py lines 97-103), scanning a list payload for a wrapped,
title-matching post. -/
def scanPostList (title : Value) : List Value → Option Value
  | [] => none
  | item :: rest =>
    if item.isDict ∧ item.hasKey "post" ∧ (item.get "post").isDict ∧
        (item.get "post").get "title" = title then
      some ((item.get "post").get "id")
    else scanPostList title rest

/-- The early-`return` candidates one history record offers to the
`resolve_post_id_by_title` scan (action_tracker.py lines 83-117): `some v`
when the record triggers `return v` — note `v` may be `Value.null` when a
title-matching payload lacks an `id` key — and `none` when the loop falls
through to the next record.  The first guarded section (lines 84-103) probes
the successful result payload in three shapes; the second section
(lines 105-117) handles content-creation records.  In the second section the
source reads `result_data['post'].get('id')` without an `isinstance` check;
on a non-dict `'post'` payload Python would raise an `AttributeError` inside
the executor's `try` block — the total model yields `Value.null`, which the
caller converts to the same kind of failure envelope. -/
def resolvePostIdStep (title : Value) (action : ActionRecord) : Option Value :=
  let fromResult : Option Value :=
    if action.resultTruthy && (action.resultGet "success").truthy then
      let data := action.resultGetOr "data" (.dict [])
      if data.isDict ∧ data.get "title" = title then
        some (data.get "id")
      else if data.isDict ∧ data.hasKey "post" ∧ (data.get "post").isDict ∧
          (data.get "post").get "title" = title then
        some ((data.get "post").get "id")
      else
        match data with
        | .list items => scanPostList title items
        | _ => none
    else none
  let fromCreation : Option Value :=
    if action.tool_name = "create_post" ∨ action.tool_name = "create_comment" then
      if dictGet action.parameters "title" = title then
        if action.resultTruthy && (action.resultGet "success").truthy then
          let result_data := action.resultGetOr "data" (.dict [])
          if result_data.isDict then
            if result_data.hasKey "post" then some ((result_data.get "post").get "id")
            else if result_data.get "title" = title then some (result_data.get "id")
            else none
          else none
        else none
      else none
    else none
  fromResult <|> fromCreation

/-- `ActionTracker.resolve_post_id_by_title` (lines 67-119): scan the history
most recent first, skipping other agents' records, returning the first
record's candidate. -/
def postIdScan (agent_username : String) (title : Value) : List ActionRecord → Value
  | [] => .null
  | action :: rest =>
    if action.agent_username ≠ agent_username then postIdScan agent_username title rest
    else
      match resolvePostIdStep title action with
      | some v => v
      | none => postIdScan agent_username title rest

def ActionTracker.resolve_post_id_by_title (t : ActionTracker) (agent_username : String)
    (title : Value) : Value :=
  postIdScan agent_username title t.actions.reverse

/-- The early-`return` candidates one record offers to
`resolve_user_id_by_username` (lines 135-153).  An author-only match
deliberately returns Python `None` (modelled `some .null`, an early return
carrying `None`), signalling the caller to fall back to a database lookup.
The third source branch (lines 151-153) repeats the first verbatim and is
unreachable; it is kept for fidelity. -/
def resolveUserIdStep (username : Value) (action : ActionRecord) : Option Value :=
  if action.resultTruthy && (action.resultGet "success").truthy then
    let data := action.resultGetOr "data" (.dict [])
    if data.isDict then
      if data.get "username" = username ∧ data.hasKey "id" then some (data.get "id")
      else if data.get "author_username" = username then some .null
      else if data.get "username" = username ∧ data.hasKey "id" then some (data.get "id")
      else none
    else none
  else none

/-- `ActionTracker.resolve_user_id_by_username` (lines 121-155): scans the whole
history (all agents), most recent first. -/
def userIdScan (username : Value) : List ActionRecord → Value
  | [] => .null
  | action :: rest =>
    match resolveUserIdStep username action with
    | some v => v
    | none => userIdScan username rest

def ActionTracker.resolve_user_id_by_username (t : ActionTracker) (username : Value) : Value :=
  userIdScan username t.actions.reverse

/-- `ActionTracker.resolve_context_value` (lines 39-65). -/
def ActionTracker.resolve_context_value (t : ActionTracker) (agent_username : String)
    (context_param : String) (tool_parameters : List (String × Value)) : Value :=
  if context_param = "agent_username" then .str agent_username
  else if context_param = "target_post_id" then
    if alistContains tool_parameters "title" then
      t.resolve_post_id_by_title agent_username (dictGet tool_parameters "title")
    else .null
  else if context_param = "target_user_id" then
    if alistContains tool_parameters "username" then
      t.resolve_user_id_by_username (dictGet tool_parameters "username")
    else .null
  else .null

/-- The posts one record contributes to `recent_posts` in `get_agent_context`
(lines 172-194): the Python loop appends into one shared list; the whole loop
equals the concatenation of these per-record contributions. -/
def extractPostsStep (action : ActionRecord) : List Value :=
  if action.resultTruthy && (action.resultGet "success").truthy then
    let data := action.resultGetOr "data" (.dict [])
    if data.isDict then
      if data.hasKey "title" ∧ data.hasKey "content" then [data]
      else if data.hasKey "post" then [data.get "post"]
      else if data.hasKey "posts" ∧ (data.get "posts").isList then (data.get "posts").items
      else []
    else
      match data with
      | .list items =>
        items.filterMap fun item =>
          if item.isDict ∧ item.hasKey "post" then some (item.get "post") else none
      | _ => []
  else []

/-- The deduplication loop of `get_agent_context` (lines 197-204): walk the
extracted posts most recent first, keep a post when its title is unseen, stop
as soon as five posts are kept.  `post.get('title')` on a non-dict element
would raise in Python (caught nowhere — but reachable only from payloads no
repository service produces); the total model reads it as `Value.null`. -/
def dedupPosts : List Value → List Value → List Value → List Value
  | [], _, acc => acc
  | post :: rest, seen, acc =>
    if seen.contains (post.get "title") then dedupPosts rest seen acc
    else
      let acc' := acc ++ [post]
      if 5 ≤ acc'.length then acc'
      else dedupPosts rest (post.get "title" :: seen) acc'

/-- The compact form of one record in the `recent_actions` window
(lines 209-216): tool name, timestamp and the raw `success` entry of the
result (`False` when the result is falsy or the key is absent).
`timestamp.isoformat()` is rendered through the abstract clock as an
integer value. -/
def reducedAction (action : ActionRecord) : Value :=
  Value.dict [
    ("tool", .str action.tool_name),
    ("timestamp", .int action.timestamp),
    ("success",
      if action.resultTruthy then action.resultGetOr "success" (.bool false)
      else .bool false)]

/-- `ActionTracker.get_agent_context` (lines 157-217). -/
def ActionTracker.get_agent_context (t : ActionTracker) (agent_username : String) : Value :=
  let agent_actions := t.actions.filter (fun a => a.agent_username = agent_username)
  let recent_actions := lastN 10 agent_actions
  let recent_posts := (recent_actions.map extractPostsStep).flatten
  let unique_posts := dedupPosts recent_posts.reverse [] []
  Value.dict [
    ("recent_posts", .list unique_posts.reverse),
    ("action_count", .int agent_actions.length),
    ("recent_actions", .list ((lastN 5 recent_actions).map reducedAction))]

/-- `ActionTracker.clear_agent_history` (lines 219-221). -/
def ActionTracker.clear_agent_history (t : ActionTracker) (agent_username : String) :
    ActionTracker :=
  { actions := t.actions.filter (fun a => a.agent_username ≠ agent_username) }

/-- `ActionTracker.clear_all_history` (lines 223-225). -/
def ActionTracker.clear_all_history (_t : ActionTracker) : ActionTracker :=
  { actions := [] }

/-!
## `tool_registry.py` — `ToolDefinition` and `ToolRegistry`
-/

/-- `ToolDefinition` (tool_registry.py lines 11-21).  The response formatter is
an arbitrary function on values (a Python callable). -/
structure ToolDefinition where
  tool : String
  description : String
  parameters : List (String × Value)
  service : String
  arguments_mapping : List (String × String)
  context_params : List String
  response_formatter : Value → Value

/-- The response-formatter template shared verbatim by the nine
`format_*_response` closures of `_register_default_tools` (each closure only
varies the default message, the `action` tag and the key the payload is
nested under): pass failures through unchanged, wrap successful payloads. -/
def formatToolResponse (defaultMsg action dataKey : String) (db_result : Value) : Value :=
  if !(db_result.get "success").truthy then db_result
  else
    .dict [
      ("success", .bool true),
      ("message", db_result.getOr "message" (.str defaultMsg)),
      ("data", .dict [("action", .str action), (dataKey, db_result.get "data")])]

/-- `format_create_post_response` (tool_registry.py lines 35-46). -/
def format_create_post_response : Value → Value :=
  formatToolResponse "Post created successfully" "create_post" "post"

/-- `format_create_response_response` (lines 71-82). -/
def format_create_response_response : Value → Value :=
  formatToolResponse "Response created successfully" "create_response" "response"

/-- `format_view_post_response` (lines 113-124). -/
def format_view_post_response : Value → Value :=
  formatToolResponse "Post viewed successfully" "view_post" "post_data"

/-- `format_react_to_post_response` (lines 150-161). -/
def format_react_to_post_response : Value → Value :=
  formatToolResponse "Post reaction completed" "react_to_post" "reaction_data"

/-- `format_react_to_response_response` (lines 193-204). -/
def format_react_to_response_response : Value → Value :=
  formatToolResponse "Response reaction completed" "react_to_response" "reaction_data"

/-- `format_connect_with_user_response` (lines 235-246). -/
def format_connect_with_user_response : Value → Value :=
  formatToolResponse "User connection completed" "connect_with_user" "connection_data"

/-- `format_manage_community_response` (lines 272-283). -/
def format_manage_community_response : Value → Value :=
  formatToolResponse "Community management completed" "manage_community" "community_data"

/-- `format_get_discovery_response` (lines 315-326). -/
def format_get_discovery_response : Value → Value :=
  formatToolResponse "Discovery content retrieved" "get_discovery" "discovery_data"

/-- `format_search_response` (lines 354-365). -/
def format_search_response : Value → Value :=
  formatToolResponse "Search completed" "search" "search_results"

/-- Default tool 1, `create_post` (lines 48-68). -/
def create_post_def : ToolDefinition where
  tool := "create_post"
  description := "Create a new post with title and content"
  parameters := [
    ("title", .dict [("type", .str "string"),
      ("description", .str "Title of the post")]),
    ("content", .dict [("type", .str "string"),
      ("description", .str "Content of the post")])]
  service := "agent_create_post"
  arguments_mapping := [("title", "title"), ("content", "content")]
  context_params := ["agent_username"]
  response_formatter := format_create_post_response

/-- Default tool 2, `create_response` (lines 84-110). -/
def create_response_def : ToolDefinition where
  tool := "create_response"
  description := "Create a comment or reply on a post"
  parameters := [
    ("content_type", .dict [("type", .str "string"),
      ("description", .str "Type of response: \x27comment\x27 or \x27reply\x27"),
      ("enum", .list [.str "comment", .str "reply"])]),
    ("post_id", .dict [("type", .str "integer"),
      ("description", .str "ID of the post to respond to")]),
    ("content", .dict [("type", .str "string"),
      ("description", .str "Content of the response")])]
  service := "agent_create_response"
  arguments_mapping := [("content_type", "content_type"), ("post_id", "post_id"),
    ("content", "content")]
  context_params := ["agent_username"]
  response_formatter := format_create_response_response

/-- Default tool 3, `view_post` (lines 126-147). -/
def view_post_def : ToolDefinition where
  tool := "view_post"
  description := "View post details, reactions, or comments"
  parameters := [
    ("view_type", .dict [("type", .str "string"),
      ("description", .str "What to view: \x27overview\x27, \x27reactions\x27, or \x27comments\x27"),
      ("enum", .list [.str "overview", .str "reactions", .str "comments"])]),
    ("post_id", .dict [("type", .str "integer"),
      ("description", .str "ID of the post to view")])]
  service := "agent_view_post"
  arguments_mapping := [("view_type", "view_type"), ("post_id", "post_id")]
  context_params := ["agent_username"]
  response_formatter := format_view_post_response

/-- Default tool 4, `react_to_post` (lines 163-190).  Its `comment` parameter
is declared `required: False` in the schema, yet appears unconditionally in
`arguments_mapping`. -/
def react_to_post_def : ToolDefinition where
  tool := "react_to_post"
  description := "Like, unlike, or share a post"
  parameters := [
    ("reaction_type", .dict [("type", .str "string"),
      ("description", .str "Type of reaction: \x27like\x27, \x27unlike\x27, or \x27share\x27"),
      ("enum", .list [.str "like", .str "unlike", .str "share"])]),
    ("post_id", .dict [("type", .str "integer"),
      ("description", .str "ID of the post to react to")]),
    ("comment", .dict [("type", .str "string"),
      ("description", .str "Optional comment when sharing"),
      ("required", .bool false)])]
  service := "agent_react_to_post"
  arguments_mapping := [("reaction_type", "reaction_type"), ("post_id", "post_id"),
    ("comment", "comment")]
  context_params := ["agent_username"]
  response_formatter := format_react_to_post_response

/-- Default tool 5, `react_to_response` (lines 206-232). -/
def react_to_response_def : ToolDefinition where
  tool := "react_to_response"
  description := "Like or unlike a comment/reply"
  parameters := [
    ("resolution_type", .dict [("type", .str "string"),
      ("description", .str "Type of resolution: \x27like\x27 or \x27unlike\x27"),
      ("enum", .list [.str "like", .str "unlike"])]),
    ("post_id", .dict [("type", .str "integer"),
      ("description", .str "ID of the response to react to")]),
    ("reaction_type", .dict [("type", .str "string"),
      ("description", .str "Always \x27like\x27 for response reactions")])]
  service := "agent_react_to_response"
  arguments_mapping := [("resolution_type", "resolution_type"), ("post_id", "post_id"),
    ("reaction_type", "reaction_type")]
  context_params := ["agent_username"]
  response_formatter := format_react_to_response_response

/-- Default tool 6, `connect_with_user` (lines 248-269). -/
def connect_with_user_def : ToolDefinition where
  tool := "connect_with_user"
  description := "Follow, unfollow, or get user profile/relationship/posts"
  parameters := [
    ("action_type", .dict [("type", .str "string"),
      ("description", .str
        "Action: \x27follow\x27, \x27unfollow\x27, \x27get_profile\x27, \x27get_relationship\x27, \x27get_posts\x27"),
      ("enum", .list [.str "follow", .str "unfollow", .str "get_profile",
        .str "get_relationship", .str "get_posts"])]),
    ("target_username", .dict [("type", .str "string"),
      ("description", .str "Username of the target user")])]
  service := "agent_connect_with_user"
  arguments_mapping := [("action_type", "action_type"),
    ("target_username", "target_username")]
  context_params := ["agent_username"]
  response_formatter := format_connect_with_user_response

/-- Default tool 7, `manage_community` (lines 285-312). -/
def manage_community_def : ToolDefinition where
  tool := "manage_community"
  description := "Create, join, leave, or get community information"
  parameters := [
    ("action_type", .dict [("type", .str "string"),
      ("description", .str
        "Action: \x27create\x27, \x27join\x27, \x27leave\x27, \x27get_info\x27, \x27get_members\x27"),
      ("enum", .list [.str "create", .str "join", .str "leave", .str "get_info",
        .str "get_members"])]),
    ("community_name", .dict [("type", .str "string"),
      ("description", .str "Name of the community")]),
    ("description", .dict [("type", .str "string"),
      ("description", .str "Description for community creation"),
      ("required", .bool false)])]
  service := "agent_manage_community"
  arguments_mapping := [("action_type", "action_type"),
    ("community_name", "community_name"), ("description", "description")]
  context_params := ["agent_username"]
  response_formatter := format_manage_community_response

/-- Default tool 8, `get_discovery` (lines 328-351).  Its `limit` parameter is
declared `required: False` with `default: 20`, yet appears unconditionally in
`arguments_mapping`. -/
def get_discovery_def : ToolDefinition where
  tool := "get_discovery"
  description := "Get personalized feed or trending content"
  parameters := [
    ("discovery_type", .dict [("type", .str "string"),
      ("description", .str "Type of discovery: \x27feed\x27 or \x27trending\x27"),
      ("enum", .list [.str "feed", .str "trending"])]),
    ("limit", .dict [("type", .str "integer"),
      ("description", .str "Maximum number of items to return"),
      ("default", .int 20),
      ("required", .bool false)])]
  service := "agent_get_discovery"
  arguments_mapping := [("discovery_type", "discovery_type"), ("limit", "limit")]
  context_params := ["agent_username"]
  response_formatter := format_get_discovery_response

/-- Default tool 9, `search` (lines 367-390). -/
def search_def : ToolDefinition where
  tool := "search"
  description := "Search across posts, users, and communities"
  parameters := [
    ("query", .dict [("type", .str "string"),
      ("description", .str "Search query (case-insensitive)")]),
    ("search_type", .dict [("type", .str "string"),
      ("description", .str
        "What to search: \x27all\x27, \x27posts\x27, \x27users\x27, or \x27communities\x27"),
      ("default", .str "all"),
      ("enum", .list [.str "all", .str "posts", .str "users", .str "communities"]),
      ("required", .bool false)])]
  service := "agent_search"
  arguments_mapping := [("query", "query"), ("search_type", "search_type")]
  context_params := ["agent_username"]
  response_formatter := format_search_response

/-- The nine default tools, in the registration order of
`_register_default_tools`. -/
def defaultToolDefinitions : List ToolDefinition :=
  [create_post_def, create_response_def, view_post_def, react_to_post_def,
   react_to_response_def, connect_with_user_def, manage_community_def,
   get_discovery_def, search_def]

/-- `ToolRegistry`: the keyed store `_tools` (a Python dict). -/
structure ToolRegistry where
  tools : List (String × ToolDefinition) := []

/-- `ToolRegistry.register_tool` (lines 392-394): insert or replace under
`tool_def.tool`. -/
def ToolRegistry.register_tool (r : ToolRegistry) (tool_def : ToolDefinition) : ToolRegistry :=
  { tools := alistInsert r.tools tool_def.tool tool_def }

/-- `ToolRegistry.__init__` (lines 27-29): an empty store populated by
`_register_default_tools`. -/
def ToolRegistry.init : ToolRegistry :=
  defaultToolDefinitions.foldl ToolRegistry.register_tool {}

/-- `ToolRegistry.get_tool` (lines 396-398). -/
def ToolRegistry.get_tool (r : ToolRegistry) (tool_name : String) : Option ToolDefinition :=
  alistGet? r.tools tool_name

/-- `ToolRegistry.get_all_tools` (lines 400-402).  The source returns
`self._tools.copy()`; in the functional model the copy is the value itself. -/
def ToolRegistry.get_all_tools (r : ToolRegistry) : List (String × ToolDefinition) :=
  r.tools

/-- The schema of one tool as built by `get_tools_schema` (lines 404-430):
the source threads one loop filling `properties` and `required` together;
the net effect splits into the two comprehensions below, in declaration
order.  A parameter is required unless its schema carries a falsy
`required` entry. -/
def toolSchema (td : ToolDefinition) : Value :=
  Value.dict [
    ("name", .str td.tool),
    ("description", .str td.description),
    ("parameters", .dict [
      ("type", .str "object"),
      ("properties", .dict (td.parameters.map fun p =>
        (p.1, Value.dict [
          ("type", p.2.getOr "type" (.str "string")),
          ("description", p.2.getOr "description" (.str ""))]))),
      ("required", .list (td.parameters.filterMap fun p =>
        if (p.2.getOr "required" (.bool true)).truthy then some (Value.str p.1)
        else none))])]

/-- `ToolRegistry.get_tools_schema` (lines 404-430). -/
def ToolRegistry.get_tools_schema (r : ToolRegistry) : List Value :=
  r.tools.map (fun p => toolSchema p.2)

/-!
## `tool_executor.py` — `AgentToolExecutor`
-/

/-- A backend service operation: gets the keyword-argument dict the executor
built (the transactional session handle passed alongside is omitted — see the
header) and either returns a value or raises (`.error` carries `str(e)`). -/
def ServiceFn : Type := List (String × Value) → Except String Value

/-- The `agora.platform.services` module as the executor sees it through
`hasattr`/`getattr`: a partial map from exported names to operations.  The
module's functions run SQL against a live database and are outside the
engine; theorems quantify over this map. -/
def ServicesModule : Type := String → Option ServiceFn

/-- `AgentToolExecutor` state: the registry, the operation cache (whose
entries can be the Python value `None` for catalog services missing from the
services module — hence `Option ServiceFn` values), and the per-agent
tracker map. -/
structure Executor where
  registry : ToolRegistry
  service_cache : List (String × Option ServiceFn)
  agent_trackers : List (String × ActionTracker)

/-- `AgentToolExecutor._build_service_cache` (tool_executor.py lines 35-58):
one cache entry per service name referenced by the registry — present module
attributes cached, absent ones stored as `None`.  The source first collects
the names into a Python `set`; here duplicate names are kept as duplicate
bindings, which carry the same value `db_services name`, so every lookup
(the only way the cache is read) agrees with the deduplicated dict. -/
def build_service_cache (db_services : ServicesModule) (r : ToolRegistry) :
    List (String × Option ServiceFn) :=
  (r.get_all_tools.map (fun p => p.2.service)).map
    (fun service_name => (service_name, db_services service_name))

/-- `AgentToolExecutor.__init__` (lines 28-33). -/
def Executor.init (db_services : ServicesModule)
    (tool_registry : Option ToolRegistry := none) : Executor :=
  let registry := tool_registry.getD ToolRegistry.init
  { registry := registry,
    service_cache := build_service_cache db_services registry,
    agent_trackers := [] }

/-- `AgentToolExecutor._get_agent_tracker` (lines 60-72): fetch the agent's
tracker, creating an empty one on first access (the returned executor carries
the possibly-extended map). -/
def Executor.get_agent_tracker (ex : Executor) (agent_username : String) :
    Executor × ActionTracker :=
  match alistGet? ex.agent_trackers agent_username with
  | some t => (ex, t)
  | none =>
    ({ ex with agent_trackers := alistInsert ex.agent_trackers agent_username {} }, {})

/-- Writing back a mutated tracker (Python mutates the shared
`ActionTracker` object in place). -/
def Executor.set_tracker (ex : Executor) (agent_username : String) (t : ActionTracker) :
    Executor :=
  { ex with agent_trackers := alistInsert ex.agent_trackers agent_username t }

/-- The loop of `_build_service_arguments` (lines 190-215), with the
`raise ValueError` sites modelled as `.error` carrying `str(e)`.  The third
arm (`mapping_source == service_arg and mapping_source in tool_parameters`,
lines 209-210) is subsumed by the first and kept for fidelity. -/
def buildServiceArgsLoop (agent_username : String) (td : ToolDefinition)
    (tool_parameters : List (String × Value)) :
    Executor → List (String × String) → List (String × Value) →
      Executor × Except String (List (String × Value))
  | ex, [], service_args => (ex, .ok service_args)
  | ex, (service_arg, mapping_source) :: rest, service_args =>
    if alistContains tool_parameters mapping_source then
      buildServiceArgsLoop agent_username td tool_parameters ex rest
        (alistInsert service_args service_arg (dictGet tool_parameters mapping_source))
    else if mapping_source ∈ td.context_params then
      let (ex', tracker) := ex.get_agent_tracker agent_username
      let context_value :=
        tracker.resolve_context_value agent_username mapping_source tool_parameters
      if context_value ≠ .null then
        buildServiceArgsLoop agent_username td tool_parameters ex' rest
          (alistInsert service_args service_arg context_value)
      else (ex', .error s!"Cannot resolve context parameter: {mapping_source}")
    else if mapping_source = service_arg ∧ alistContains tool_parameters mapping_source then
      buildServiceArgsLoop agent_username td tool_parameters ex rest
        (alistInsert service_args service_arg (dictGet tool_parameters mapping_source))
    else
      (ex, .error
        s!"Cannot map service argument \x27{service_arg}\x27 from source \x27{mapping_source}\x27")

/-- `AgentToolExecutor._build_service_arguments` (lines 177-215). -/
def Executor.build_service_arguments (ex : Executor) (agent_username : String)
    (td : ToolDefinition) (tool_parameters : List (String × Value)) :
    Executor × Except String (List (String × Value)) :=
  buildServiceArgsLoop agent_username td tool_parameters ex td.arguments_mapping []

/-- `AgentToolExecutor._execute_platform_service` (lines 217-256).  The outer
`.error` is the `raise ValueError` for a missing cache entry (line 230,
before the `try`); a service raise is caught inside (lines 251-256) and
converted to an envelope, so it comes back as `.ok`. -/
def Executor.execute_platform_service (ex : Executor) (service_name : String)
    (service_args : List (String × Value)) : Except String Value :=
  match alistGet? ex.service_cache service_name with
  | none | some none => .error s!"Platform service not available: {service_name}"
  | some (some service_func) =>
    match service_func service_args with
    | .error e =>
      .ok (.dict [("success", .bool false),
        ("message", .str s!"Service execution failed: {e}"), ("data", .null)])
    | .ok result =>
      if result = .null then
        .ok (.dict [("success", .bool false),
          ("message", .str "Service returned None"), ("data", .null)])
      else if !result.isDict || !result.hasKey "success" then
        .ok (.dict [("success", .bool true),
          ("message", .str "Service executed successfully"), ("data", result)])
      else .ok result

/-- Python `repr` of a list of tool names, as interpolated by the
unknown-tool message (line 111). -/
def pyListRepr (names : List String) : String :=
  "[" ++ String.intercalate ", " (names.map (fun n => "\x27" ++ n ++ "\x27")) ++ "]"

/-- `AgentToolExecutor._format_invalid_tool_response` (lines 151-175). -/
def Executor.format_invalid_tool_response (ex : Executor) (tool_call : Value)
    (error_message : String) : Value :=
  .dict [
    ("success", .bool false),
    ("message", .str s!"Invalid tool call: {error_message}"),
    ("data", .dict [
      ("available_tools", .list (ex.registry.get_tools_schema.map (fun t => t.get "name"))),
      ("tool_call_format", .dict [
        ("tool", .str "string (tool name)"),
        ("parameters", .str "dict (tool-specific parameters)")]),
      ("suggestion", .str "Please check your tool call format and try again.")]),
    ("tool", tool_call.get "tool"),
    ("parameters", tool_call.getOr "parameters" (.dict []))]

/-- The `except Exception` branch of `execute_tool_call` (lines 133-149):
build the failure envelope and record it to the invoking agent's history. -/
def Executor.toolExecutionFailure (ex : Executor) (agent_username : String)
    (tool_name parameters : Value) (e : String) (ts : Nat) : Executor × Value :=
  let error_response : Value := .dict [
    ("success", .bool false),
    ("message", .str s!"Tool execution failed: {e}"),
    ("data", .null),
    ("tool", tool_name),
    ("parameters", parameters)]
  let (ex', agent_tracker) := ex.get_agent_tracker agent_username
  let tracker' := agent_tracker.record_action agent_username tool_name.asStr
    parameters.dfields (some error_response) ts
  (ex'.set_tracker agent_username tracker', error_response)

/-- The body of `execute_tool_call` from line 85 on, once the request is known
to be a dict.  Total: every branch, including every path of the `try` block,
returns an envelope.  The agent identifier is typed `String`, so of Python's
`not agent_username or not isinstance(agent_username, str)` only the
emptiness half remains. -/
def Executor.executeToolCallDict (ex : Executor) (agent_username : String)
    (tool_call : Value) (ts : Nat) : Executor × Value :=
  let tool_name := tool_call.get "tool"
  let parameters := tool_call.getOr "parameters" (.dict [])
  if !tool_name.truthy || !tool_name.isStr then
    (ex, ex.format_invalid_tool_response tool_call
      "Tool call must include a valid \x27tool\x27 field with string name")
  else if !parameters.truthy || !parameters.isDict then
    (ex, ex.format_invalid_tool_response tool_call
      "Tool call must include a valid \x27parameters\x27 field with dictionary")
  else if agent_username = "" then
    (ex, ex.format_invalid_tool_response tool_call "Agent username must be a valid string")
  else
    match ex.registry.get_tool tool_name.asStr with
    | none =>
      let known := pyListRepr (ex.registry.get_all_tools.map (fun p => p.1))
      let name := tool_name.asStr
      (ex, ex.format_invalid_tool_response tool_call
        s!"Unknown tool \x27{name}\x27. Available tools: {known}")
    | some tool_def =>
      let (ex1, argsRes) := ex.build_service_arguments agent_username tool_def
        parameters.dfields
      match argsRes with
      | .error e => ex1.toolExecutionFailure agent_username tool_name parameters e ts
      | .ok service_args =>
        match ex1.execute_platform_service tool_def.service service_args with
        | .error e => ex1.toolExecutionFailure agent_username tool_name parameters e ts
        | .ok db_result =>
          let formatted_response := tool_def.response_formatter db_result
          let (ex2, agent_tracker) := ex1.get_agent_tracker agent_username
          let tracker' := agent_tracker.record_action agent_username tool_name.asStr
            parameters.dfields (some formatted_response) ts
          (ex2.set_tracker agent_username tracker', formatted_response)

/-- `AgentToolExecutor.execute_tool_call` (lines 74-149).  The result is
`.error` when an exception escapes the method: the only such site is
`tool_call.get('tool')` on line 85, which raises `AttributeError` when the
request value is not a dict and runs before any validation or `try` block. -/
def Executor.execute_tool_call (ex : Executor) (agent_username : String)
    (tool_call : Value) (ts : Nat) : Except String (Executor × Value) :=
  match tool_call with
  | .dict _ => .ok (ex.executeToolCallDict agent_username tool_call ts)
  | _ => .error "AttributeError: tool_call object has no attribute get"

/-- `AgentToolExecutor.get_available_tools` (lines 258-265). -/
def Executor.get_available_tools (ex : Executor) : List Value :=
  ex.registry.get_tools_schema

/-- `AgentToolExecutor.get_agent_context` (lines 267-278). -/
def Executor.get_agent_context (ex : Executor) (agent_username : String) :
    Executor × Value :=
  let (ex', agent_tracker) := ex.get_agent_tracker agent_username
  (ex', agent_tracker.get_agent_context agent_username)

/-- `AgentToolExecutor.clear_agent_history` (lines 280-283): drop the agent's
tracker from the map. -/
def Executor.clear_agent_history (ex : Executor) (agent_username : String) : Executor :=
  { ex with agent_trackers := ex.agent_trackers.filter (fun p => p.1 ≠ agent_username) }

/-- `AgentToolExecutor.clear_all_agent_history` (lines 285-287). -/
def Executor.clear_all_agent_history (ex : Executor) : Executor :=
  { ex with agent_trackers := [] }

/-- `AgentToolExecutor.register_custom_tool` (lines 289-293): register, then
rebuild the operation cache from scratch. -/
def Executor.register_custom_tool (db_services : ServicesModule) (ex : Executor)
    (tool_def : ToolDefinition) : Executor :=
  let registry := ex.registry.register_tool tool_def
  { ex with
      registry := registry
      service_cache := build_service_cache db_services registry }

/-- `AgentToolExecutor.register_custom_service` (lines 295-297): inject one
operation straight into the cache. -/
def Executor.register_custom_service (ex : Executor) (service_name : String)
    (service_func : ServiceFn) : Executor :=
  { ex with service_cache := alistInsert ex.service_cache service_name (some service_func) }

/-- `AgentToolExecutor.execute_tool_calls` (lines 299-314): `zip` the two
lists positionally and run `execute_tool_call` on each pair sequentially,
collecting results in order.  The clock ticks once per call. -/
def Executor.execute_tool_calls :
    Executor → List String → List Value → Nat → Except String (Executor × List Value)
  | ex, agent_username :: agents, tool_call :: calls, ts =>
    match ex.execute_tool_call agent_username tool_call ts with
    | .error e => .error e
    | .ok (ex', result) =>
      match Executor.execute_tool_calls ex' agents calls (ts + 1) with
      | .error e => .error e
      | .ok (exN, results) => .ok (exN, result :: results)
  | ex, _, _, _ => .ok (ex, [])

/-- Observer: the number of records in an agent's history (`0` before the
agent's tracker exists). -/
def Executor.historyLength (ex : Executor) (agent_username : String) : Nat :=
  match alistGet? ex.agent_trackers agent_username with
  | none => 0
  | some t => t.actions.length

/-- Observer: the uniform response-envelope shape — `success`, `message` and
`data` keys all present. -/
def hasEnvelopeKeys (v : Value) : Bool :=
  v.hasKey "success" && v.hasKey "message" && v.hasKey "data"

/-- A backend operation honours the collaborator interface: any value it
returns is either not a dict, or a dict without a `success` key (both are
auto-wrapped by the executor), or a full `success`/`message`/`data`
envelope.  Every function of `agora.platform.services` returns full
envelopes. -/
def serviceRespectsEnvelope (f : ServiceFn) : Prop :=
  ∀ args r, f args = .ok r →
    r.isDict = false ∨ r.hasKey "success" = false ∨ hasEnvelopeKeys r = true

/-- A response formatter maps envelopes to envelopes (all nine default
formatters do: failures pass through unchanged, successes are rebuilt as
full envelopes). -/
def formatterPreservesEnvelope (g : Value → Value) : Prop :=
  ∀ v, hasEnvelopeKeys v = true → hasEnvelopeKeys (g v) = true

/-- Claim-side deduplication: walking the list in order, keep an element when
its title is neither in `seen` nor carried by an earlier kept element. -/
def dedupFirstByTitle : List Value → List Value → List Value
  | [], _ => []
  | p :: rest, seen =>
    if seen.contains (p.get "title") then dedupFirstByTitle rest seen
    else p :: dedupFirstByTitle rest (p.get "title" :: seen)

/-!
## Concrete fixtures

Small concrete executors, tools and service functions used by witnesses and
counterexamples.
-/

/-- A bare executor over the empty registry, empty cache and no histories. -/
def emptyExecutor : Executor := ⟨{ tools := [] }, [], []⟩

/-- A services module exporting nothing. -/
def noServices : ServicesModule := fun _ => none

/-- A tool whose descriptor targets the backend operation name `ghost_svc`,
which `noServices` does not export. -/
def ghost_tool_def : ToolDefinition where
  tool := "ghost"
  description := "targets a manually injected operation"
  parameters := [("q", .dict [("type", .str "integer"), ("description", .str "q")])]
  service := "ghost_svc"
  arguments_mapping := [("q", "q")]
  context_params := []
  response_formatter := id

/-- The executor after `register_custom_service` injected an operation under
`ghost_svc` directly into the cache. -/
def ghostInjected : Executor :=
  emptyExecutor.register_custom_service "ghost_svc" (fun _ => .ok .null)

/-- `ghostInjected` after a `register_custom_tool` call, whose cache rebuild
discards the injected operation. -/
def ghostRebuilt : Executor :=
  Executor.register_custom_tool noServices ghostInjected ghost_tool_def

/-- A title-addressed action: a tool whose backend `post_id` argument is
bound from the `target_post_id` context parameter.  None of the nine default
tools is wired this way (`react_to_post` maps `post_id` directly from a
supplied parameter), so the claim's scenario requires registering such a
tool; the repository's stale test suite exercised exactly this kind of
`like_post` tool. -/
def like_post_def : ToolDefinition where
  tool := "like_post"
  description := "Like a post addressed by its title"
  parameters := [("title", .dict [("type", .str "string"),
    ("description", .str "Title of the post to like")])]
  service := "agent_like_post"
  arguments_mapping := [("post_id", "target_post_id")]
  context_params := ["agent_username", "target_post_id"]
  response_formatter := format_react_to_post_response

/-- The value `agent_create_post` returns on its success path (services.py
lines 77-87) after creating the post with id `pid`: the assigned id appears
only inside the message string — the `data` payload carries
`agent_username`, `title`, `content` and `created_at`, and no `id` key.
(`title` is the stripped title; the inputs used here carry no surrounding
whitespace.) -/
def agent_create_post_success (agent_username title content created_at : String)
    (pid : Int) : Value :=
  .dict [
    ("success", .bool true),
    ("message", .str s!"Post created successfully (ID: {pid})"),
    ("data", .dict [
      ("agent_username", .str agent_username),
      ("title", .str title),
      ("content", .str content),
      ("created_at", .str created_at)])]

/-- The record `execute_tool_call` appends to alice's history after a
successful `create_post` invocation titled "Hello" whose backend returned
`agent_create_post_success` (the envelope recorded is the output of the
tool's formatter, exactly as step 5 of the executor stores it). -/
def aliceCreateRecord : ActionRecord where
  agent_username := "alice"
  tool_name := "create_post"
  parameters := [("title", .str "Hello"), ("content", .str "hi there")]
  result := some (format_create_post_response
    (agent_create_post_success "alice" "Hello" "hi there" "2026-01-01T00:00:00" 7))
  timestamp := 0

/-- A services module exporting the `like_post` tool's backend operation (an
echo operation recording the keyword arguments it receives). -/
def likeScenarioServices : ServicesModule := fun n =>
  if n = "agent_like_post" then
    some (fun args => .ok (.dict [("success", .bool true),
      ("message", .str "liked"), ("data", .dict args)]))
  else none

/-- The engine state of the claim's scenario: the default registry plus
`like_post`, the rebuilt cache over `likeScenarioServices`, and alice's
history holding the recorded successful `create_post`. -/
def likeScenarioExecutor : Executor where
  registry := ToolRegistry.init.register_tool like_post_def
  service_cache := build_service_cache likeScenarioServices
    (ToolRegistry.init.register_tool like_post_def)
  agent_trackers := [("alice", { actions := [aliceCreateRecord] })]

/-!
## Helper lemmas
-/

mutual

theorem Value.beq_iff : ∀ a b : Value, Value.beq a b = true ↔ a = b
  | .null, .null => by simp [Value.beq]
  | .bool _, .bool _ => by simp [Value.beq]
  | .int _, .int _ => by simp [Value.beq]
  | .str _, .str _ => by simp [Value.beq]
  | .list a, .list b => by rw [Value.beq, Value.beqList_iff a b]; simp
  | .dict a, .dict b => by rw [Value.beq, Value.beqFields_iff a b]; simp
  | .null, .bool _ | .null, .int _ | .null, .str _ | .null, .list _
  | .null, .dict _ => by simp [Value.beq]
  | .bool _, .null | .bool _, .int _ | .bool _, .str _ | .bool _, .list _
  | .bool _, .dict _ => by simp [Value.beq]
  | .int _, .null | .int _, .bool _ | .int _, .str _ | .int _, .list _
  | .int _, .dict _ => by simp [Value.beq]
  | .str _, .null | .str _, .bool _ | .str _, .int _ | .str _, .list _
  | .str _, .dict _ => by simp [Value.beq]
  | .list _, .null | .list _, .bool _ | .list _, .int _ | .list _, .str _
  | .list _, .dict _ => by simp [Value.beq]
  | .dict _, .null | .dict _, .bool _ | .dict _, .int _ | .dict _, .str _
  | .dict _, .list _ => by simp [Value.beq]

theorem Value.beqList_iff : ∀ as bs : List Value, Value.beqList as bs = true ↔ as = bs
  | [], [] => by simp [Value.beqList]
  | a :: as, b :: bs => by
      rw [Value.beqList, Bool.and_eq_true, Value.beq_iff a b, Value.beqList_iff as bs]
      simp
  | [], _ :: _ => by simp [Value.beqList]
  | _ :: _, [] => by simp [Value.beqList]

theorem Value.beqFields_iff :
    ∀ as bs : List (String × Value), Value.beqFields as bs = true ↔ as = bs
  | [], [] => by simp [Value.beqFields]
  | (k, v) :: as, (l, w) :: bs => by
      rw [Value.beqFields, Bool.and_eq_true, Bool.and_eq_true, Value.beq_iff v w,
        Value.beqFields_iff as bs]
      simp [Prod.ext_iff, and_assoc]
  | [], _ :: _ => by simp [Value.beqFields]
  | _ :: _, [] => by simp [Value.beqFields]

end

instance : LawfulBEq Value where
  eq_of_beq h := (Value.beq_iff _ _).1 h
  rfl := (Value.beq_iff _ _).2 rfl


/-- The reverse history scan of `resolve_post_id_by_title` is: first
early-return candidate over the agent's own records, in scan order. -/
theorem postIdScan_eq_findSome (agent : String) (title : Value) :
    ∀ l : List ActionRecord,
      postIdScan agent title l =
        ((l.filter (fun a => a.agent_username = agent)).findSome?
          (resolvePostIdStep title)).getD .null
  | [] => rfl
  | a :: rest => by
    by_cases h : a.agent_username = agent
    · rw [postIdScan]
      rcases hstep : resolvePostIdStep title a with _ | v
      · simp [h, hstep, List.filter_cons, List.findSome?_cons,
          postIdScan_eq_findSome agent title rest]
      · simp [h, hstep, List.filter_cons, List.findSome?_cons]
    · rw [postIdScan]
      simp [h, List.filter_cons, postIdScan_eq_findSome agent title rest]

/-!
## The claims
-/

/-- **C4.**  Resolving the context parameter `target_post_id` scans the
agent's own action records most recent first and returns the first record's
candidate post id (the extraction `resolvePostIdStep`); when the supplied
parameters lack a `title` key, or the context parameter is none of
`agent_username` / `target_post_id` / `target_user_id`, resolution returns
absent (`None`) instead of raising. -/
theorem C4_resolve_target_post_id :
    (∀ (t : ActionTracker) (agent : String) (params : List (String × Value)),
      alistContains params "title" = false →
        t.resolve_context_value agent "target_post_id" params = .null) ∧
    (∀ (t : ActionTracker) (agent : String) (params : List (String × Value)),
      alistContains params "title" = true →
        t.resolve_context_value agent "target_post_id" params =
          t.resolve_post_id_by_title agent (dictGet params "title")) ∧
    (∀ (t : ActionTracker) (agent : String) (title : Value),
      t.resolve_post_id_by_title agent title =
        (((t.actions.reverse).filter (fun a => a.agent_username = agent)).findSome?
          (resolvePostIdStep title)).getD .null) ∧
    (∀ (t : ActionTracker) (agent cp : String) (params : List (String × Value)),
      cp ≠ "agent_username" → cp ≠ "target_post_id" → cp ≠ "target_user_id" →
        t.resolve_context_value agent cp params = .null) := by
  refine ⟨?_, ?_, ?_, ?_⟩
  · intro t agent params h
    simp [ActionTracker.resolve_context_value, h]
  · intro t agent params h
    simp [ActionTracker.resolve_context_value, h]
  · intro t agent title
    exact postIdScan_eq_findSome agent title t.actions.reverse
  · intro t agent cp params h1 h2 h3
    simp [ActionTracker.resolve_context_value, h1, h2, h3]

/-- If some entry of the traversed mapping has a source that is neither a key
of the supplied parameters nor a declared context parameter, the binding loop
ends in an error (at that entry or an earlier one): the parameter schema —
and with it any `required: False` or `default` declaration — is never
consulted. -/
theorem buildServiceArgsLoop_error_of_unbindable (agent : String) (td : ToolDefinition)
    (params : List (String × Value)) (sa src : String)
    (hsrc : alistContains params src = false) (hctx : src ∉ td.context_params) :
    ∀ (mapping : List (String × String)) (ex : Executor) (acc : List (String × Value)),
      (sa, src) ∈ mapping →
      ∃ ex' e, buildServiceArgsLoop agent td params ex mapping acc = (ex', .error e)
  | [], _, _, hmem => absurd hmem (List.not_mem_nil _)
  | (sa', src') :: rest, ex, acc, hmem => by
    rw [buildServiceArgsLoop]
    rcases List.mem_cons.1 hmem with hhead | htail
    · obtain ⟨h5, h6⟩ := Prod.ext_iff.1 hhead
      dsimp only at h5 h6
      subst h5; subst h6
      rw [if_neg (by simp [hsrc]), if_neg hctx,
        if_neg (fun h => absurd h.2 (by simp [hsrc]))]
      exact ⟨_, _, rfl⟩
    · by_cases h1 : alistContains params src' = true
      · rw [if_pos h1]
        exact buildServiceArgsLoop_error_of_unbindable agent td params sa src hsrc hctx
          rest _ _ htail
      · rw [if_neg h1]
        by_cases h2 : src' ∈ td.context_params
        · rw [if_pos h2]
          rcases hga : ex.get_agent_tracker agent with ⟨exg, tracker⟩
          dsimp only
          by_cases h3 :
              tracker.resolve_context_value agent src' params ≠ Value.null
          · rw [if_pos h3]
            exact buildServiceArgsLoop_error_of_unbindable agent td params sa src hsrc
              hctx rest _ _ htail
          · rw [if_neg h3]
            exact ⟨_, _, rfl⟩
        · rw [if_neg h2]
          by_cases h4 : src' = sa' ∧ alistContains params src' = true
          · rw [if_pos h4]
            exact buildServiceArgsLoop_error_of_unbindable agent td params sa src hsrc
              hctx rest _ _ htail
          · rw [if_neg h4]
            exact ⟨_, _, rfl⟩

/-- **C10.**  A parameter declared optional (`react_to_post`'s `comment`,
declared `required: False`) or carrying a default (`get_discovery`'s `limit`,
declared `default: 20, required: False`) is still bound unconditionally: the
schema's optionality and defaults are never consulted, so omitting the
parameter makes the whole invocation fail with an argument-binding failure
(conjuncts 3-5), for any backend services module. -/
theorem C10_optional_params_still_required :
    ((dictGet react_to_post_def.parameters "comment").get "required" = .bool false) ∧
    ((dictGet get_discovery_def.parameters "limit").get "required" = .bool false ∧
      (dictGet get_discovery_def.parameters "limit").get "default" = .int 20) ∧
    (∀ (ex : Executor) (agent : String) (td : ToolDefinition)
        (params : List (String × Value)) (sa src : String),
      (sa, src) ∈ td.arguments_mapping →
      alistContains params src = false →
      src ∉ td.context_params →
      ∃ ex' e, ex.build_service_arguments agent td params = (ex', .error e)) ∧
    (∀ (db_services : ServicesModule) (ts : Nat),
      ∃ ex',
        (Executor.init db_services).execute_tool_call "alice"
            (.dict [("tool", .str "react_to_post"),
              ("parameters", .dict [("reaction_type", .str "like"),
                ("post_id", .int 3)])]) ts =
          .ok (ex', .dict [
            ("success", .bool false),
            ("message", .str
              "Tool execution failed: Cannot map service argument \x27comment\x27 from source \x27comment\x27"),
            ("data", .null),
            ("tool", .str "react_to_post"),
            ("parameters", .dict [("reaction_type", .str "like"),
              ("post_id", .int 3)])])) ∧
    (∀ (db_services : ServicesModule) (ts : Nat),
      ∃ ex',
        (Executor.init db_services).execute_tool_call "alice"
            (.dict [("tool", .str "get_discovery"),
              ("parameters", .dict [("discovery_type", .str "feed")])]) ts =
          .ok (ex', .dict [
            ("success", .bool false),
            ("message", .str
              "Tool execution failed: Cannot map service argument \x27limit\x27 from source \x27limit\x27"),
            ("data", .null),
            ("tool", .str "get_discovery"),
            ("parameters", .dict [("discovery_type", .str "feed")])])) := by
  refine ⟨rfl, ⟨rfl, rfl⟩, ?_, ?_, ?_⟩
  · intro ex agent td params sa src hmem hsrc hctx
    exact buildServiceArgsLoop_error_of_unbindable agent td params sa src hsrc hctx
      td.arguments_mapping ex [] hmem
  · intro db_services ts
    exact ⟨_, rfl⟩
  · intro db_services ts
    exact ⟨_, rfl⟩

/-- Witness for C10 at concrete inputs. -/
theorem C10_optional_params_still_required_witness :
    (∃ ex' e,
      Executor.build_service_arguments
        ⟨{ tools := [] }, [], []⟩ "alice" react_to_post_def
        [("reaction_type", .str "like"), ("post_id", .int 3)] = (ex', .error e)) ∧
    (∃ ex',
      (Executor.init (fun _ => none)).execute_tool_call "alice"
          (.dict [("tool", .str "get_discovery"),
            ("parameters", .dict [("discovery_type", .str "feed")])]) 0 =
        .ok (ex', .dict [
          ("success", .bool false),
          ("message", .str
            "Tool execution failed: Cannot map service argument \x27limit\x27 from source \x27limit\x27"),
          ("data", .null),
          ("tool", .str "get_discovery"),
          ("parameters", .dict [("discovery_type", .str "feed")])])) :=
  ⟨C10_optional_params_still_required.2.2.1 _ "alice" react_to_post_def
      [("reaction_type", .str "like"), ("post_id", .int 3)] "comment" "comment"
      (by decide) (by decide) (by decide),
   C10_optional_params_still_required.2.2.2.2 (fun _ => none) 0⟩

theorem alistGet?_insert_self {α : Type} :
    ∀ (l : List (String × α)) (k : String) (v : α),
      alistGet? (alistInsert l k v) k = some v
  | [], k, v => by simp [alistInsert, alistGet?]
  | (k', v') :: rest, k, v => by
    by_cases h : k' = k
    · subst h
      simp [alistInsert, alistGet?]
    · have hd : (decide (k' = k)) = false := by simp [h]
      simp only [alistInsert, h, if_false, alistGet?, List.find?, hd]
      exact alistGet?_insert_self rest k v

theorem alistGet?_insert_ne {α : Type} (k k2 : String) (hne : k2 ≠ k) :
    ∀ (l : List (String × α)) (v : α),
      alistGet? (alistInsert l k v) k2 = alistGet? l k2
  | [], v => by
    have hd : (decide (k = k2)) = false := by simp [hne.symm]
    simp [alistInsert, alistGet?, List.find?, hd]
  | (k', v') :: rest, v => by
    by_cases h : k' = k
    · subst h
      have hd : (decide (k' = k2)) = false := by simp [hne.symm]
      simp [alistInsert, alistGet?, List.find?, hd]
    · by_cases h2 : k' = k2
      · subst h2
        simp [alistInsert, h, alistGet?, List.find?]
      · have hd : (decide (k' = k2)) = false := by simp [h2]
        simp only [alistInsert, h, if_false, alistGet?, List.find?, hd]
        exact alistGet?_insert_ne k k2 hne rest v

theorem alistInsert_mem_self {α : Type} :
    ∀ (l : List (String × α)) (k : String) (v : α), (k, v) ∈ alistInsert l k v
  | [], k, v => List.mem_singleton.2 rfl
  | (k', v') :: rest, k, v => by
    by_cases h : k' = k
    · simp [alistInsert, h]
    · simp only [alistInsert, h, if_false]
      exact List.mem_cons_of_mem _ (alistInsert_mem_self rest k v)

/-- Looking up a key present in a keyed map built pointwise from a function
yields that function\x27s value (duplicate keys carry equal values). -/
theorem alistGet?_map_pair {β : Type} (f : String → β) :
    ∀ (names : List String) (s : String), s ∈ names →
      alistGet? (names.map fun n => (n, f n)) s = some (f s)
  | [], s, hmem => absurd hmem (List.not_mem_nil s)
  | n :: rest, s, hmem => by
    by_cases h : n = s
    · subst h
      simp [alistGet?, List.find?]
    · have hd : (decide (n = s)) = false := by simp [h]
      simp only [List.map_cons, alistGet?, List.find?, hd]
      exact alistGet?_map_pair f rest s
        ((List.mem_cons.1 hmem).resolve_left (fun hc => h hc.symm))

/-- A dict-shaped request never escapes `execute_tool_call` as an exception:
the body from line 85 on is total. -/
theorem execute_tool_call_ok_of_dict (ex : Executor) (agent : String) (tc : Value)
    (ts : Nat) (h : tc.isDict = true) :
    ex.execute_tool_call agent tc ts = .ok (ex.executeToolCallDict agent tc ts) := by
  cases tc with
  | dict fields => rfl
  | null => simp [Value.isDict] at h
  | bool b => simp [Value.isDict] at h
  | int n => simp [Value.isDict] at h
  | str s => simp [Value.isDict] at h
  | list items => simp [Value.isDict] at h

/-- A batch of dict-shaped requests always completes, producing one result per
positional pairing — regardless of how many of those results are failure
envelopes. -/
theorem execute_tool_calls_total :
    ∀ (agents : List String) (calls : List Value) (ex : Executor) (ts : Nat),
      (∀ c ∈ calls, c.isDict = true) →
      ∃ exN results, ex.execute_tool_calls agents calls ts = .ok (exN, results) ∧
        results.length = min agents.length calls.length
  | [], [], ex, ts, _ => ⟨ex, [], rfl, by simp⟩
  | [], _ :: _, ex, ts, _ => ⟨ex, [], rfl, by simp⟩
  | _ :: _, [], ex, ts, _ => ⟨ex, [], rfl, by simp⟩
  | a :: as, c :: cs, ex, ts, h => by
    have hc : c.isDict = true := h c (List.mem_cons_self ..)
    have hok := execute_tool_call_ok_of_dict ex a c ts hc
    rcases hp : ex.executeToolCallDict a c ts with ⟨ex1, r⟩
    rw [hp] at hok
    obtain ⟨exN, results, hrun, hlen⟩ := execute_tool_calls_total as cs ex1 (ts + 1)
      (fun c' hc' => h c' (List.mem_cons_of_mem _ hc'))
    refine ⟨exN, r :: results, ?_, ?_⟩
    · rw [Executor.execute_tool_calls, hok]
      dsimp only
      rw [hrun]
    · simp [hlen, Nat.succ_min_succ]

/-- **C7.**  `execute_tool_calls` pairs agents and requests positionally and
runs them sequentially and independently through `execute_tool_call`:
(1) a batch of dict-shaped requests always yields one result per pairing, in
input order; (2) the batch result is the head invocation's envelope consed
onto the independent run of the remaining pairings from the updated state —
whether or not the head envelope is a failure. -/
theorem C7_batch_sequential_independent :
    (∀ (ex : Executor) (agents : List String) (calls : List Value) (ts : Nat),
      (∀ c ∈ calls, c.isDict = true) →
      ∃ exN results, ex.execute_tool_calls agents calls ts = .ok (exN, results) ∧
        results.length = min agents.length calls.length) ∧
    (∀ (ex : Executor) (a : String) (c : Value) (as : List String) (cs : List Value)
        (ts : Nat),
      c.isDict = true →
      ∃ ex1 r, ex.execute_tool_call a c ts = .ok (ex1, r) ∧
        ex.execute_tool_calls (a :: as) (c :: cs) ts =
          (ex1.execute_tool_calls as cs (ts + 1)).map (fun p => (p.1, r :: p.2))) := by
  constructor
  · intro ex agents calls ts h
    exact execute_tool_calls_total agents calls ex ts h
  · intro ex a c as cs ts hc
    have hok := execute_tool_call_ok_of_dict ex a c ts hc
    rcases hp : ex.executeToolCallDict a c ts with ⟨ex1, r⟩
    rw [hp] at hok
    refine ⟨ex1, r, hok, ?_⟩
    rw [Executor.execute_tool_calls, hok]
    dsimp only
    rcases hb : ex1.execute_tool_calls as cs (ts + 1) with e | ⟨exN, results⟩ <;> rfl

/-- Every value stored in a pointwise-built keyed map is the function's value
at its key. -/
theorem alistGet?_map_pair_eq {β : Type} (f : String → β) :
    ∀ (names : List String) (s : String) (v : β),
      alistGet? (names.map fun n => (n, f n)) s = some v → v = f s
  | [], s, v, h => by simp [alistGet?] at h
  | n :: rest, s, v, h => by
    by_cases hn : n = s
    · subst hn
      rw [List.map_cons, alistGet?, List.find?_cons_of_pos _ (by simp)] at h
      simpa using h.symm
    · rw [List.map_cons, alistGet?,
        List.find?_cons_of_neg _ (by simpa using hn)] at h
      exact alistGet?_map_pair_eq f rest s v h

/-- Fetching an agent's tracker (creating an empty one if needed) never
changes any agent's history length. -/
theorem historyLength_get_agent_tracker (ex : Executor) (agent a : String) :
    (ex.get_agent_tracker agent).1.historyLength a = ex.historyLength a := by
  rw [Executor.get_agent_tracker]
  rcases hl : alistGet? ex.agent_trackers agent with _ | t
  · by_cases ha : a = agent
    · subst ha
      simp [Executor.historyLength, alistGet?_insert_self, hl, ActionTracker.actions]
    · simp [Executor.historyLength, alistGet?_insert_ne agent a ha]
  · rfl

/-- Fetching an agent's tracker returns the stored one, or a fresh empty
tracker for a first-time agent. -/
theorem get_agent_tracker_actions (ex : Executor) (agent : String) :
    ((ex.get_agent_tracker agent).2).actions.length = ex.historyLength agent := by
  rw [Executor.get_agent_tracker]
  rcases hl : alistGet? ex.agent_trackers agent with _ | t <;>
    simp [Executor.historyLength, hl, ActionTracker.actions]

/-- Fetch-then-record-then-store (the recording idiom of both the success
branch and the `except` branch of `execute_tool_call`) grows the invoking
agent's history by exactly one record. -/
theorem historyLength_after_record (ex : Executor) (agent tn : String)
    (ps : List (String × Value)) (res : Option Value) (ts : Nat) :
    ((ex.get_agent_tracker agent).1.set_tracker agent
        (((ex.get_agent_tracker agent).2).record_action agent tn ps res ts)).historyLength
      agent = ex.historyLength agent + 1 := by
  have h2 := get_agent_tracker_actions ex agent
  rw [Executor.set_tracker, Executor.historyLength]
  rw [alistGet?_insert_self]
  simp [ActionTracker.record_action, h2]

/-- The `except` branch of `execute_tool_call` appends exactly one record to
the invoking agent's history. -/
theorem historyLength_toolExecutionFailure (ex : Executor) (agent : String)
    (tn ps : Value) (e : String) (ts : Nat) :
    (ex.toolExecutionFailure agent tn ps e ts).1.historyLength agent =
      ex.historyLength agent + 1 := by
  rw [Executor.toolExecutionFailure]
  rcases hg : ex.get_agent_tracker agent with ⟨exg, tr⟩
  dsimp only
  have := historyLength_after_record ex agent tn.asStr ps.dfields
    (some (Value.dict [
      ("success", .bool false),
      ("message", .str s!"Tool execution failed: {e}"),
      ("data", .null),
      ("tool", tn),
      ("parameters", ps)])) ts
  rw [hg] at this
  exact this

/-- The binding loop touches agent histories only through
`_get_agent_tracker`, so it never changes any history length. -/
theorem historyLength_buildServiceArgsLoop (agent : String) (td : ToolDefinition)
    (params : List (String × Value)) :
    ∀ (mapping : List (String × String)) (ex : Executor) (acc : List (String × Value))
      (a : String),
      (buildServiceArgsLoop agent td params ex mapping acc).1.historyLength a =
        ex.historyLength a
  | [], ex, acc, a => rfl
  | (sa, src) :: rest, ex, acc, a => by
    rw [buildServiceArgsLoop]
    by_cases h1 : alistContains params src = true
    · rw [if_pos h1]
      exact historyLength_buildServiceArgsLoop agent td params rest ex _ a
    · rw [if_neg h1]
      by_cases h2 : src ∈ td.context_params
      · rw [if_pos h2]
        rcases hg : ex.get_agent_tracker agent with ⟨exg, tr⟩
        dsimp only
        have hex : exg.historyLength a = ex.historyLength a := by
          have := historyLength_get_agent_tracker ex agent a
          rwa [hg] at this
        by_cases h3 : tr.resolve_context_value agent src params ≠ Value.null
        · rw [if_pos h3]
          rw [historyLength_buildServiceArgsLoop agent td params rest exg _ a]
          exact hex
        · rw [if_neg h3]
          exact hex
      · rw [if_neg h2]
        by_cases h4 : src = sa ∧ alistContains params src = true
        · rw [if_pos h4]
          exact historyLength_buildServiceArgsLoop agent td params rest ex _ a
        · rw [if_neg h4]

/-- Fetching an agent\x27s tracker leaves registry and operation cache alone. -/
theorem get_agent_tracker_cache (ex : Executor) (agent : String) :
    (ex.get_agent_tracker agent).1.service_cache = ex.service_cache := by
  rw [Executor.get_agent_tracker]
  rcases alistGet? ex.agent_trackers agent with _ | t <;> rfl

/-- The binding loop never touches the operation cache. -/
theorem buildServiceArgsLoop_cache (agent : String) (td : ToolDefinition)
    (params : List (String × Value)) :
    ∀ (mapping : List (String × String)) (ex : Executor) (acc : List (String × Value)),
      (buildServiceArgsLoop agent td params ex mapping acc).1.service_cache =
        ex.service_cache
  | [], ex, acc => rfl
  | (sa, src) :: rest, ex, acc => by
    rw [buildServiceArgsLoop]
    by_cases h1 : alistContains params src = true
    · rw [if_pos h1]
      exact buildServiceArgsLoop_cache agent td params rest ex _
    · rw [if_neg h1]
      by_cases h2 : src ∈ td.context_params
      · rw [if_pos h2]
        rcases hg : ex.get_agent_tracker agent with ⟨exg, tr⟩
        dsimp only
        have hex : exg.service_cache = ex.service_cache := by
          have := get_agent_tracker_cache ex agent
          rwa [hg] at this
        by_cases h3 : tr.resolve_context_value agent src params ≠ Value.null
        · rw [if_pos h3]
          rw [buildServiceArgsLoop_cache agent td params rest exg _]
          exact hex
        · rw [if_neg h3]
          exact hex
      · rw [if_neg h2]
        by_cases h4 : src = sa ∧ alistContains params src = true
        · rw [if_pos h4]
          exact buildServiceArgsLoop_cache agent td params rest ex _
        · rw [if_neg h4]

/-- The envelope the `except` branch returns, verbatim. -/
theorem toolExecutionFailure_snd (ex : Executor) (agent : String) (tn ps : Value)
    (e : String) (ts : Nat) :
    (ex.toolExecutionFailure agent tn ps e ts).2 = .dict [
      ("success", .bool false),
      ("message", .str s!"Tool execution failed: {e}"),
      ("data", .null),
      ("tool", tn),
      ("parameters", ps)] := by
  rw [Executor.toolExecutionFailure]

/-- **C9.**  An operation injected straight into the cache under a name the
services module does not export is discarded by the cache rebuild that
`register_custom_tool` performs: no callable remains under that name
(conjunct 1), and a subsequent invocation of any tool whose descriptor
targets that operation name fails with the operation-unavailable execution
failure, recorded to the invoking agent's history (conjunct 2). -/
theorem C9_custom_service_discarded_by_rebuild :
    (∀ (db_services : ServicesModule) (ex : Executor) (name : String) (f : ServiceFn)
        (td2 : ToolDefinition),
      db_services name = none →
      ∀ g, alistGet? (Executor.register_custom_tool db_services
          (ex.register_custom_service name f) td2).service_cache name ≠ some (some g)) ∧
    (∀ (db_services : ServicesModule) (ex : Executor) (name : String) (f : ServiceFn)
        (td2 td : ToolDefinition) (agent : String) (params : List (String × Value))
        (ts : Nat) (ex1 : Executor) (args : List (String × Value)),
      db_services name = none →
      agent ≠ "" → td.tool ≠ "" → params ≠ [] →
      td.service = name →
      (Executor.register_custom_tool db_services
          (ex.register_custom_service name f) td2).registry.get_tool td.tool = some td →
      (Executor.register_custom_tool db_services
          (ex.register_custom_service name f) td2).build_service_arguments agent td
          params = (ex1, .ok args) →
      ∃ ex2 v,
        (Executor.register_custom_tool db_services
            (ex.register_custom_service name f) td2).execute_tool_call agent
            (.dict [("tool", .str td.tool), ("parameters", .dict params)]) ts =
          .ok (ex2, v) ∧
        v.get "success" = .bool false ∧
        v.get "message" =
          .str s!"Tool execution failed: Platform service not available: {name}" ∧
        ex2.historyLength agent =
          (Executor.register_custom_tool db_services
            (ex.register_custom_service name f) td2).historyLength agent + 1) := by
  constructor
  · intro db_services ex name f td2 hnone g hsome
    have := alistGet?_map_pair_eq db_services _ name (some g) hsome
    rw [hnone] at this
    exact Option.noConfusion this
  · intro db_services ex name f td2 td agent params ts ex1 args hnone hagent htool
      hparams hsvcname hget hargs
    set exR := Executor.register_custom_tool db_services
      (ex.register_custom_service name f) td2 with hexR
    have hempty : params.isEmpty = false := by simpa using hparams
    have htools : (Value.str td.tool).truthy = true := by
      simp [Value.truthy, htool]
    have hok := execute_tool_call_ok_of_dict exR agent
      (.dict [("tool", .str td.tool), ("parameters", .dict params)]) ts rfl
    rw [hok]
    have h1 : Value.get (.dict [("tool", .str td.tool), ("parameters", .dict params)])
        "tool" = .str td.tool := rfl
    have h2 : Value.getOr (.dict [("tool", .str td.tool), ("parameters", .dict params)])
        "parameters" (.dict []) = .dict params := rfl
    have hptruthy : (Value.dict params).truthy = true := by
      simp [Value.truthy, hempty]
    have hcache : ex1.service_cache = exR.service_cache := by
      have h5 : (exR.build_service_arguments agent td params).1 = ex1 := by rw [hargs]
      rw [← h5, Executor.build_service_arguments,
        buildServiceArgsLoop_cache agent td params td.arguments_mapping exR []]
    have hplat : ∀ (sargs : List (String × Value)),
        ex1.execute_platform_service name sargs =
          .error s!"Platform service not available: {name}" := by
      intro sargs
      rw [Executor.execute_platform_service, hcache]
      rcases hl : alistGet? exR.service_cache name with _ | v
      · rfl
      · have hl2 : alistGet?
            ((((ex.register_custom_service name f).registry.register_tool
              td2).get_all_tools.map (fun p => p.2.service)).map
                (fun n => (n, db_services n))) name = some v := hl
        have hv : v = db_services name :=
          alistGet?_map_pair_eq db_services _ name v hl2
        rw [hnone] at hv
        subst hv
        rfl
    simp only [Executor.executeToolCallDict, h1, h2, htools, hptruthy, Value.isStr,
      Value.isDict, Value.asStr, Value.dfields, Bool.not_true, Bool.or_self,
      Bool.false_or, Bool.or_false, Bool.false_eq_true, if_false, hget]
    rw [if_neg hagent]
    rw [hargs]
    dsimp only
    rw [hsvcname, hplat args]
    dsimp only
    refine ⟨(ex1.toolExecutionFailure agent (.str td.tool) (.dict params)
        s!"Platform service not available: {name}" ts).1,
      (ex1.toolExecutionFailure agent (.str td.tool) (.dict params)
        s!"Platform service not available: {name}" ts).2, rfl, ?_, ?_, ?_⟩
    · rw [toolExecutionFailure_snd]
      rfl
    · rw [toolExecutionFailure_snd]
      show (Value.str ("Tool execution failed: " ++
          ("Platform service not available: " ++ name ++ "") ++ "")) =
        (Value.str ("Tool execution failed: Platform service not available: " ++
          name ++ ""))
      congr 1
      simp [← String.append_assoc]
    · have h5 : (exR.build_service_arguments agent td params).1 = ex1 := by
        rw [hargs]
      have hkeep : ex1.historyLength agent = exR.historyLength agent := by
        rw [← h5, Executor.build_service_arguments]
        exact historyLength_buildServiceArgsLoop agent td params td.arguments_mapping
          exR [] agent
      rw [historyLength_toolExecutionFailure, hkeep]

/-- Whatever `_execute_platform_service` returns without raising is a full
envelope, provided the cached operations honour the collaborator interface. -/
theorem execute_platform_service_envelope (ex : Executor) (name : String)
    (args : List (String × Value)) (v : Value)
    (hsvc : ∀ f, alistGet? ex.service_cache name = some (some f) →
      serviceRespectsEnvelope f)
    (h : ex.execute_platform_service name args = .ok v) :
    hasEnvelopeKeys v = true := by
  rw [Executor.execute_platform_service] at h
  rcases hl : alistGet? ex.service_cache name with _ | o
  · rw [hl] at h; exact Except.noConfusion h
  · rcases o with _ | f
    · rw [hl] at h; exact Except.noConfusion h
    · rw [hl] at h
      dsimp only at h
      rcases hf : f args with e | r
      · rw [hf] at h
        injection h with h2
        subst h2
        rfl
      · rw [hf] at h
        dsimp only at h
        by_cases hr : r = Value.null
        · rw [if_pos hr] at h
          injection h with h2
          subst h2
          rfl
        · rw [if_neg hr] at h
          by_cases hc : (!r.isDict || !r.hasKey "success") = true
          · rw [if_pos hc] at h
            injection h with h2
            subst h2
            rfl
          · rw [if_neg hc] at h
            injection h with h2
            subst h2
            rcases hsvc f hl args r hf with h1 | h2 | h3
            · exact absurd hc (by simp [h1])
            · exact absurd hc (by simp [h2])
            · exact h3

/-- **C2 counterexample.**  A request value that is not a dict — here the
Python `None` — makes `execute_tool_call` raise an uncaught `AttributeError`
at `tool_call.get('tool')`, before any validation or `try` block: the claim
fails for such request values. -/
theorem C2_nondict_request_counterexample :
    (Executor.init noServices).execute_tool_call "alice" .null 0 =
      .error "AttributeError: tool_call object has no attribute get" := rfl

/-- **C2 (amended).**  For every agent identifier and every *dict-shaped*
request value — the shape the engine's interface declares — and any executor
whose cached operations and registered formatters honour the envelope
interface, `execute_tool_call` returns (never raises) an envelope containing
the `success`, `message` and `data` keys, on valid, malformed and erroring
paths alike. -/
theorem C2_envelope_on_dict_requests :
    ∀ (ex : Executor) (agent : String) (tc : Value) (ts : Nat),
      tc.isDict = true →
      (∀ name f, alistGet? ex.service_cache name = some (some f) →
        serviceRespectsEnvelope f) →
      (∀ name td, ex.registry.get_tool name = some td →
        formatterPreservesEnvelope td.response_formatter) →
      ∃ ex' v, ex.execute_tool_call agent tc ts = .ok (ex', v) ∧
        hasEnvelopeKeys v = true := by
  intro ex agent tc ts hdict hsvc hfmt
  rw [execute_tool_call_ok_of_dict ex agent tc ts hdict]
  refine ⟨(ex.executeToolCallDict agent tc ts).1, (ex.executeToolCallDict agent tc ts).2,
    rfl, ?_⟩
  rw [Executor.executeToolCallDict]
  dsimp only
  split
  · rfl
  · split
    · rfl
    · split
      · rfl
      · rcases hg : ex.registry.get_tool (tc.get "tool").asStr with _ | td
        · rfl
        · dsimp only
          rcases hb : ex.build_service_arguments agent td
              (tc.getOr "parameters" (.dict [])).dfields with ⟨ex1, argsRes⟩
          dsimp only
          rcases argsRes with e | sargs
          · rw [toolExecutionFailure_snd]
            rfl
          · dsimp only
            rcases hp : ex1.execute_platform_service td.service sargs with e | db_result
            · rw [toolExecutionFailure_snd]
              rfl
            · dsimp only
              refine hfmt (tc.get "tool").asStr td hg db_result ?_
              refine execute_platform_service_envelope ex1 td.service sargs db_result
                ?_ hp
              intro f hl
              have hcache : ex1.service_cache = ex.service_cache := by
                have h5 : (ex.build_service_arguments agent td
                    (tc.getOr "parameters" (.dict [])).dfields).1 = ex1 := by rw [hb]
                rw [← h5, Executor.build_service_arguments]
                exact buildServiceArgsLoop_cache agent td _ td.arguments_mapping ex []
              rw [hcache] at hl
              exact hsvc td.service f hl

/-- Witness for C2 at a concrete dict request over the bare executor (whose
empty cache and registry satisfy both interface hypotheses vacuously). -/
theorem C2_envelope_on_dict_requests_witness :
    ∃ ex' v,
      emptyExecutor.execute_tool_call "alice"
          (.dict [("tool", .str "x"), ("parameters", .dict [("a", .int 1)])]) 0 =
        .ok (ex', v) ∧ hasEnvelopeKeys v = true :=
  C2_envelope_on_dict_requests emptyExecutor "alice"
    (.dict [("tool", .str "x"), ("parameters", .dict [("a", .int 1)])]) 0 rfl
    (fun _ _ h => Option.noConfusion h)
    (fun _ _ h => Option.noConfusion h)

/-- **C1 (code bug).**  Evaluating the code at the claim's scenario: alice's
history holds the recorded successful `create_post` titled "Hello" (post id
7 assigned, the record being the formatter's output over the service's
documented success value), and alice then invokes `like_post` — a tool whose
backend `post_id` argument is bound from the `target_post_id` context
parameter — supplying only the title.  Because `agent_create_post`'s success
payload carries no `id` key, `resolve_post_id_by_title` hits the
title-matching `post`-wrapped payload and returns its missing id, i.e.
`None`; the engine therefore aborts with a binding failure and the backend
receives nothing — not the assigned id 7 the claim promises. -/
theorem C1_title_resolution_loses_created_id :
    (ActionTracker.mk [aliceCreateRecord]).resolve_post_id_by_title "alice"
        (.str "Hello") = .null ∧
    (aliceCreateRecord.resultGet "success" = .bool true ∧
      aliceCreateRecord.tool_name = "create_post" ∧
      dictGet aliceCreateRecord.parameters "title" = .str "Hello") ∧
    (∃ ex' v,
      likeScenarioExecutor.execute_tool_call "alice"
          (.dict [("tool", .str "like_post"),
            ("parameters", .dict [("title", .str "Hello")])]) 1 =
        .ok (ex', v) ∧
      v.get "success" = .bool false ∧
      v.get "message" =
        .str "Tool execution failed: Cannot resolve context parameter: target_post_id") :=
  ⟨rfl, ⟨rfl, rfl, rfl⟩, ⟨_, _, rfl, rfl, rfl⟩⟩

/-- The break-at-five dedup loop of `get_agent_context` equals full
deduplication followed by a cap. -/
theorem dedupPosts_eq :
    ∀ (l seen acc : List Value), acc.length < 5 →
      dedupPosts l seen acc = acc ++ (dedupFirstByTitle l seen).take (5 - acc.length)
  | [], seen, acc, _ => by simp [dedupPosts, dedupFirstByTitle]
  | p :: rest, seen, acc, h => by
    rw [dedupPosts, dedupFirstByTitle]
    by_cases hc : seen.contains (p.get "title") = true
    · rw [if_pos hc, if_pos hc]
      exact dedupPosts_eq rest seen acc h
    · rw [if_neg hc, if_neg hc]
      dsimp only
      by_cases h5 : 5 ≤ (acc ++ [p]).length
      · rw [if_pos h5]
        have ha : acc.length = 4 := by
          simp only [List.length_append, List.length_singleton] at h5
          omega
        have hn : 5 - acc.length = 1 := by omega
        rw [hn]
        simp
      · rw [if_neg h5]
        have hlt : (acc ++ [p]).length < 5 := by omega
        rw [dedupPosts_eq rest _ (acc ++ [p]) hlt]
        have hn : 5 - acc.length = (5 - (acc ++ [p]).length) + 1 := by
          simp only [List.length_append, List.length_singleton]
          omega
        rw [hn, List.take_succ_cons]
        simp

/-- Deduplication selects a subsequence. -/
theorem dedupFirstByTitle_sublist :
    ∀ (l seen : List Value), (dedupFirstByTitle l seen).Sublist l
  | [], _ => List.Sublist.refl []
  | p :: rest, seen => by
    rw [dedupFirstByTitle]
    by_cases hc : seen.contains (p.get "title") = true
    · rw [if_pos hc]
      exact (dedupFirstByTitle_sublist rest seen).cons p
    · rw [if_neg hc]
      exact (dedupFirstByTitle_sublist rest _).cons₂ p

/-- No kept element carries a title from `seen`. -/
theorem dedupFirstByTitle_not_seen :
    ∀ (l seen : List Value) (p : Value), p ∈ dedupFirstByTitle l seen →
      seen.contains (p.get "title") = false
  | [], _, p, hmem => absurd hmem (List.not_mem_nil p)
  | q :: rest, seen, p, hmem => by
    rw [dedupFirstByTitle] at hmem
    by_cases hc : seen.contains (q.get "title") = true
    · rw [if_pos hc] at hmem
      exact dedupFirstByTitle_not_seen rest seen p hmem
    · rw [if_neg hc] at hmem
      rcases List.mem_cons.1 hmem with rfl | htail
      · simpa using hc
      · have := dedupFirstByTitle_not_seen rest _ p htail
        simp only [List.contains_cons, Bool.or_eq_false_iff] at this
        exact this.2

/-- Kept elements carry pairwise distinct titles. -/
theorem dedupFirstByTitle_pairwise :
    ∀ (l seen : List Value),
      (dedupFirstByTitle l seen).Pairwise (fun p q => p.get "title" ≠ q.get "title")
  | [], _ => List.Pairwise.nil
  | p :: rest, seen => by
    rw [dedupFirstByTitle]
    by_cases hc : seen.contains (p.get "title") = true
    · rw [if_pos hc]
      exact dedupFirstByTitle_pairwise rest seen
    · rw [if_neg hc]
      refine List.pairwise_cons.2 ⟨?_, dedupFirstByTitle_pairwise rest _⟩
      intro q hq heq
      have hns := dedupFirstByTitle_not_seen rest _ q hq
      rw [List.contains_cons, Bool.or_eq_false_iff] at hns
      have h1 := hns.1
      rw [heq] at h1
      simp at h1

/-- `l[-5:]` of `l[-10:]` is `l[-5:]`. -/
theorem lastN_lastN {α : Type} (l : List α) : lastN 5 (lastN 10 l) = lastN 5 l := by
  unfold lastN
  rw [List.drop_drop, List.length_drop]
  congr 1
  omega

/-- A `l[-n:]` window holds at most `n` elements. -/
theorem lastN_length_le {α : Type} (n : Nat) (l : List α) : (lastN n l).length ≤ n := by
  unfold lastN
  rw [List.length_drop]
  omega

/-- **C6.**  For an agent with `n` recorded actions, `get_agent_context`
reports `action_count = n` over the whole history; `recent_actions` is
exactly the last five records reduced to tool name, timestamp and success
flag (so at most five entries); and `recent_posts` holds at most five posts
drawn from the last ten records, deduplicated by title keeping the most
recent occurrence, returned in chronological order (a subsequence of the
extraction order, with pairwise distinct titles). -/
theorem C6_agent_context (t : ActionTracker) (agent : String) :
    (t.get_agent_context agent).get "action_count" =
      .int (t.actions.filter (fun a => a.agent_username = agent)).length ∧
    (t.get_agent_context agent).get "recent_actions" =
      .list ((lastN 5 (t.actions.filter (fun a => a.agent_username = agent))).map
        reducedAction) ∧
    ((t.get_agent_context agent).get "recent_actions").items.length ≤ 5 ∧
    (t.get_agent_context agent).get "recent_posts" =
      .list (((dedupFirstByTitle
        (((lastN 10 (t.actions.filter (fun a => a.agent_username = agent))).map
          extractPostsStep).flatten.reverse) []).take 5).reverse) ∧
    ((t.get_agent_context agent).get "recent_posts").items.length ≤ 5 ∧
    ((t.get_agent_context agent).get "recent_posts").items.Sublist
      (((lastN 10 (t.actions.filter (fun a => a.agent_username = agent))).map
        extractPostsStep).flatten) ∧
    ((t.get_agent_context agent).get "recent_posts").items.Pairwise
      (fun p q => p.get "title" ≠ q.get "title") := by
  have hctx : t.get_agent_context agent =
      Value.dict [
        ("recent_posts", .list (dedupPosts
          (((lastN 10 (t.actions.filter (fun a => a.agent_username = agent))).map
            extractPostsStep).flatten.reverse) [] []).reverse),
        ("action_count",
          .int (t.actions.filter (fun a => a.agent_username = agent)).length),
        ("recent_actions", .list ((lastN 5
          (lastN 10 (t.actions.filter (fun a => a.agent_username = agent)))).map
            reducedAction))] := rfl
  have hded := dedupPosts_eq
    (((lastN 10 (t.actions.filter (fun a => a.agent_username = agent))).map
      extractPostsStep).flatten.reverse) [] [] (by simp)
  simp only [List.nil_append, List.length_nil, Nat.sub_zero] at hded
  refine ⟨?_, ?_, ?_, ?_, ?_, ?_, ?_⟩
  · rw [hctx]; rfl
  · rw [hctx]
    show Value.list _ = _
    rw [lastN_lastN]
  · rw [hctx]
    show ((lastN 5 (lastN 10 _)).map reducedAction).length ≤ 5
    rw [List.length_map]
    exact lastN_length_le 5 _
  · rw [hctx]
    show Value.list _ = _
    rw [hded]
  · rw [hctx]
    show (dedupPosts _ [] []).reverse.length ≤ 5
    rw [hded]
    simp [List.length_take]
  · rw [hctx]
    show (dedupPosts _ [] []).reverse.Sublist _
    rw [hded]
    have s1 := List.take_sublist 5 (dedupFirstByTitle
      (((lastN 10 (t.actions.filter (fun a => a.agent_username = agent))).map
        extractPostsStep).flatten.reverse) [])
    have s2 := dedupFirstByTitle_sublist
      (((lastN 10 (t.actions.filter (fun a => a.agent_username = agent))).map
        extractPostsStep).flatten.reverse) []
    have s3 := (s1.trans s2).reverse
    rwa [List.reverse_reverse] at s3
  · rw [hctx]
    show (dedupPosts _ [] []).reverse.Pairwise _
    rw [hded]
    rw [List.pairwise_reverse]
    refine ((dedupFirstByTitle_pairwise _ []).sublist (List.take_sublist 5 _)).imp ?_
    exact fun h => h.symm

/-- **C3.**  Failures before a tool is identified — missing/invalid tool name
(1), missing/invalid parameters (2), empty agent identifier (3), unknown
tool name (4) — return a failure envelope and leave the executor state, and
so every agent's history length, unchanged; failures after the descriptor
is found — argument-binding failure (5), unavailable backend operation (6),
backend exception (7, assuming the descriptor's formatter passes failures
through, as all default formatters do) — return a failure envelope and
append exactly one record to the invoking agent's history. -/
theorem C3_recording_discipline :
    (∀ (ex : Executor) (agent : String) (tc : Value) (ts : Nat),
      tc.isDict = true →
      (!(tc.get "tool").truthy || !(tc.get "tool").isStr) = true →
      ∃ v, ex.execute_tool_call agent tc ts = .ok (ex, v) ∧
        v.get "success" = .bool false) ∧
    (∀ (ex : Executor) (agent : String) (tc : Value) (ts : Nat),
      tc.isDict = true →
      (tc.get "tool").truthy = true → (tc.get "tool").isStr = true →
      (!(tc.getOr "parameters" (.dict [])).truthy ||
        !(tc.getOr "parameters" (.dict [])).isDict) = true →
      ∃ v, ex.execute_tool_call agent tc ts = .ok (ex, v) ∧
        v.get "success" = .bool false) ∧
    (∀ (ex : Executor) (tc : Value) (ts : Nat),
      tc.isDict = true →
      (tc.get "tool").truthy = true → (tc.get "tool").isStr = true →
      (tc.getOr "parameters" (.dict [])).truthy = true →
      (tc.getOr "parameters" (.dict [])).isDict = true →
      ∃ v, ex.execute_tool_call "" tc ts = .ok (ex, v) ∧
        v.get "success" = .bool false) ∧
    (∀ (ex : Executor) (agent : String) (tc : Value) (ts : Nat),
      tc.isDict = true →
      (tc.get "tool").truthy = true → (tc.get "tool").isStr = true →
      (tc.getOr "parameters" (.dict [])).truthy = true →
      (tc.getOr "parameters" (.dict [])).isDict = true →
      agent ≠ "" →
      ex.registry.get_tool (tc.get "tool").asStr = none →
      ∃ v, ex.execute_tool_call agent tc ts = .ok (ex, v) ∧
        v.get "success" = .bool false) ∧
    (∀ (ex : Executor) (agent : String) (tc : Value) (ts : Nat)
        (td : ToolDefinition) (ex1 : Executor) (e : String),
      tc.isDict = true →
      (tc.get "tool").truthy = true → (tc.get "tool").isStr = true →
      (tc.getOr "parameters" (.dict [])).truthy = true →
      (tc.getOr "parameters" (.dict [])).isDict = true →
      agent ≠ "" →
      ex.registry.get_tool (tc.get "tool").asStr = some td →
      ex.build_service_arguments agent td (tc.getOr "parameters" (.dict [])).dfields =
        (ex1, .error e) →
      ∃ ex' v, ex.execute_tool_call agent tc ts = .ok (ex', v) ∧
        v.get "success" = .bool false ∧
        ex'.historyLength agent = ex.historyLength agent + 1) ∧
    (∀ (ex : Executor) (agent : String) (tc : Value) (ts : Nat)
        (td : ToolDefinition) (ex1 : Executor) (args : List (String × Value)),
      tc.isDict = true →
      (tc.get "tool").truthy = true → (tc.get "tool").isStr = true →
      (tc.getOr "parameters" (.dict [])).truthy = true →
      (tc.getOr "parameters" (.dict [])).isDict = true →
      agent ≠ "" →
      ex.registry.get_tool (tc.get "tool").asStr = some td →
      ex.build_service_arguments agent td (tc.getOr "parameters" (.dict [])).dfields =
        (ex1, .ok args) →
      (alistGet? ex.service_cache td.service = none ∨
        alistGet? ex.service_cache td.service = some none) →
      ∃ ex' v, ex.execute_tool_call agent tc ts = .ok (ex', v) ∧
        v.get "success" = .bool false ∧
        ex'.historyLength agent = ex.historyLength agent + 1) ∧
    (∀ (ex : Executor) (agent : String) (tc : Value) (ts : Nat)
        (td : ToolDefinition) (ex1 : Executor) (args : List (String × Value))
        (f : ServiceFn) (e : String),
      tc.isDict = true →
      (tc.get "tool").truthy = true → (tc.get "tool").isStr = true →
      (tc.getOr "parameters" (.dict [])).truthy = true →
      (tc.getOr "parameters" (.dict [])).isDict = true →
      agent ≠ "" →
      ex.registry.get_tool (tc.get "tool").asStr = some td →
      ex.build_service_arguments agent td (tc.getOr "parameters" (.dict [])).dfields =
        (ex1, .ok args) →
      alistGet? ex.service_cache td.service = some (some f) →
      f args = .error e →
      (∀ v, v.get "success" = .bool false →
        (td.response_formatter v).get "success" = .bool false) →
      ∃ ex' v, ex.execute_tool_call agent tc ts = .ok (ex', v) ∧
        v.get "success" = .bool false ∧
        ex'.historyLength agent = ex.historyLength agent + 1) := by
  refine ⟨?_, ?_, ?_, ?_, ?_, ?_, ?_⟩
  · intro ex agent tc ts hdict hcond
    rw [execute_tool_call_ok_of_dict ex agent tc ts hdict,
      Executor.executeToolCallDict]
    dsimp only
    rw [if_pos hcond]
    exact ⟨_, rfl, rfl⟩
  · intro ex agent tc ts hdict h1 h2 hcond
    rw [execute_tool_call_ok_of_dict ex agent tc ts hdict,
      Executor.executeToolCallDict]
    dsimp only
    rw [if_neg (by simp [h1, h2]), if_pos hcond]
    exact ⟨_, rfl, rfl⟩
  · intro ex tc ts hdict h1 h2 h3 h4
    rw [execute_tool_call_ok_of_dict ex "" tc ts hdict,
      Executor.executeToolCallDict]
    dsimp only
    rw [if_neg (by simp [h1, h2]), if_neg (by simp [h3, h4]), if_pos rfl]
    exact ⟨_, rfl, rfl⟩
  · intro ex agent tc ts hdict h1 h2 h3 h4 hagent hnone
    rw [execute_tool_call_ok_of_dict ex agent tc ts hdict,
      Executor.executeToolCallDict]
    dsimp only
    rw [if_neg (by simp [h1, h2]), if_neg (by simp [h3, h4]), if_neg hagent, hnone]
    exact ⟨_, rfl, rfl⟩
  · intro ex agent tc ts td ex1 e hdict h1 h2 h3 h4 hagent hsome hb
    rw [execute_tool_call_ok_of_dict ex agent tc ts hdict,
      Executor.executeToolCallDict]
    dsimp only
    rw [if_neg (by simp [h1, h2]), if_neg (by simp [h3, h4]), if_neg hagent, hsome]
    dsimp only
    rw [hb]
    dsimp only
    refine ⟨(ex1.toolExecutionFailure agent (tc.get "tool")
        (tc.getOr "parameters" (.dict [])) e ts).1,
      (ex1.toolExecutionFailure agent (tc.get "tool")
        (tc.getOr "parameters" (.dict [])) e ts).2, rfl, ?_, ?_⟩
    · rw [toolExecutionFailure_snd]
      rfl
    · have h5 : (ex.build_service_arguments agent td
          (tc.getOr "parameters" (.dict [])).dfields).1 = ex1 := by rw [hb]
      have hkeep : ex1.historyLength agent = ex.historyLength agent := by
        rw [← h5, Executor.build_service_arguments]
        exact historyLength_buildServiceArgsLoop agent td _ td.arguments_mapping ex []
          agent
      rw [historyLength_toolExecutionFailure, hkeep]
  · intro ex agent tc ts td ex1 args hdict h1 h2 h3 h4 hagent hsome hb hlk
    rw [execute_tool_call_ok_of_dict ex agent tc ts hdict,
      Executor.executeToolCallDict]
    dsimp only
    rw [if_neg (by simp [h1, h2]), if_neg (by simp [h3, h4]), if_neg hagent, hsome]
    dsimp only
    rw [hb]
    dsimp only
    have h5 : (ex.build_service_arguments agent td
        (tc.getOr "parameters" (.dict [])).dfields).1 = ex1 := by rw [hb]
    have hcache : ex1.service_cache = ex.service_cache := by
      rw [← h5, Executor.build_service_arguments]
      exact buildServiceArgsLoop_cache agent td _ td.arguments_mapping ex []
    have hplat : ex1.execute_platform_service td.service args =
        .error s!"Platform service not available: {td.service}" := by
      rw [Executor.execute_platform_service, hcache]
      rcases hlk with hl | hl <;> rw [hl]
    rw [hplat]
    dsimp only
    refine ⟨(ex1.toolExecutionFailure agent (tc.get "tool")
        (tc.getOr "parameters" (.dict []))
        s!"Platform service not available: {td.service}" ts).1,
      (ex1.toolExecutionFailure agent (tc.get "tool")
        (tc.getOr "parameters" (.dict []))
        s!"Platform service not available: {td.service}" ts).2, rfl, ?_, ?_⟩
    · rw [toolExecutionFailure_snd]
      rfl
    · have hkeep : ex1.historyLength agent = ex.historyLength agent := by
        rw [← h5, Executor.build_service_arguments]
        exact historyLength_buildServiceArgsLoop agent td _ td.arguments_mapping ex []
          agent
      rw [historyLength_toolExecutionFailure, hkeep]
  · intro ex agent tc ts td ex1 args f e hdict h1 h2 h3 h4 hagent hsome hb hlk hf hfp
    rw [execute_tool_call_ok_of_dict ex agent tc ts hdict,
      Executor.executeToolCallDict]
    dsimp only
    rw [if_neg (by simp [h1, h2]), if_neg (by simp [h3, h4]), if_neg hagent, hsome]
    dsimp only
    rw [hb]
    dsimp only
    have h5 : (ex.build_service_arguments agent td
        (tc.getOr "parameters" (.dict [])).dfields).1 = ex1 := by rw [hb]
    have hcache : ex1.service_cache = ex.service_cache := by
      rw [← h5, Executor.build_service_arguments]
      exact buildServiceArgsLoop_cache agent td _ td.arguments_mapping ex []
    have hplat : ex1.execute_platform_service td.service args =
        .ok (.dict [("success", .bool false),
          ("message", .str s!"Service execution failed: {e}"), ("data", .null)]) := by
      rw [Executor.execute_platform_service, hcache, hlk]
      dsimp only
      rw [hf]
    rw [hplat]
    dsimp only
    refine ⟨(ex1.get_agent_tracker agent).1.set_tracker agent
        (((ex1.get_agent_tracker agent).2).record_action agent (tc.get "tool").asStr
          (tc.getOr "parameters" (.dict [])).dfields
          (some (td.response_formatter (.dict [("success", .bool false),
            ("message", .str s!"Service execution failed: {e}"), ("data", .null)]))) ts),
      td.response_formatter (.dict [("success", .bool false),
        ("message", .str s!"Service execution failed: {e}"), ("data", .null)]),
      rfl, ?_, ?_⟩
    · exact hfp _ rfl
    · have hkeep : ex1.historyLength agent = ex.historyLength agent := by
        rw [← h5, Executor.build_service_arguments]
        exact historyLength_buildServiceArgsLoop agent td _ td.arguments_mapping ex []
          agent
      rw [historyLength_after_record, hkeep]

/-- Witness for C3 at concrete inputs touching a pre-identification failure
(unknown tool, history untouched) and a post-identification binding failure
(history grown by one). -/
theorem C3_recording_discipline_witness :
    (∃ v,
      emptyExecutor.execute_tool_call "alice"
          (.dict [("tool", .str "nope"), ("parameters", .dict [("a", .int 1)])]) 0 =
        .ok (emptyExecutor, v) ∧ v.get "success" = .bool false) ∧
    (∃ ex' v,
      Executor.execute_tool_call (Executor.init noServices) "alice"
          (.dict [("tool", .str "react_to_post"),
            ("parameters", .dict [("reaction_type", .str "like")])]) 0 =
        .ok (ex', v) ∧
      v.get "success" = .bool false ∧
      ex'.historyLength "alice" =
        (Executor.init noServices).historyLength "alice" + 1) :=
  ⟨C3_recording_discipline.2.2.2.1 emptyExecutor "alice"
      (.dict [("tool", .str "nope"), ("parameters", .dict [("a", .int 1)])]) 0
      rfl rfl rfl rfl rfl (by decide) rfl,
   C3_recording_discipline.2.2.2.2.1 (Executor.init noServices) "alice"
      (.dict [("tool", .str "react_to_post"),
        ("parameters", .dict [("reaction_type", .str "like")])]) 0
      react_to_post_def (Executor.init noServices)
      "Cannot map service argument \x27post_id\x27 from source \x27post_id\x27"
      rfl rfl rfl rfl rfl (by decide) rfl rfl⟩

/-- **C5 counterexample.**  A backend result that lacks the standard
`success`/`message`/`data` shape — here the dict `{"success": True}`, which
has no `message` and no `data` key — is *not* wrapped as a successful
envelope carrying the raw result as payload: `_execute_platform_service`
returns it unchanged, because the source only tests for the `success` key. -/
theorem C5_shape_check_counterexample :
    Executor.execute_platform_service
        ⟨{ tools := [] },
          [("svc", some (fun _ => .ok (.dict [("success", .bool true)])))], []⟩
        "svc" [] = .ok (.dict [("success", .bool true)]) ∧
    (Value.dict [("success", .bool true)]).hasKey "message" = false ∧
    (Value.dict [("success", .bool true)]).hasKey "data" = false ∧
    Value.dict [("success", .bool true)] ≠
      .dict [("success", .bool true),
        ("message", .str "Service executed successfully"),
        ("data", .dict [("success", .bool true)])] :=
  ⟨rfl, rfl, rfl, by decide⟩

/-- **C5 (amended).**  For a backend invocation through the cached operation:
a raise is caught and becomes a failure envelope carrying the exception's
message; a `None` result (only `None` — not other empty values) becomes the
generic no-result failure; a result that is not a dict or lacks the
`success` key is wrapped as a successful envelope whose data is the raw
result; and a dict carrying a `success` key is returned unchanged, even when
`message` or `data` are missing. -/
theorem C5_platform_service_normalization :
    ∀ (ex : Executor) (name : String) (f : ServiceFn) (sargs : List (String × Value)),
      alistGet? ex.service_cache name = some (some f) →
      (∀ e, f sargs = .error e →
        ex.execute_platform_service name sargs =
          .ok (.dict [("success", .bool false),
            ("message", .str s!"Service execution failed: {e}"), ("data", .null)])) ∧
      (f sargs = .ok .null →
        ex.execute_platform_service name sargs =
          .ok (.dict [("success", .bool false),
            ("message", .str "Service returned None"), ("data", .null)])) ∧
      (∀ r, f sargs = .ok r → r ≠ .null → (!r.isDict || !r.hasKey "success") = true →
        ex.execute_platform_service name sargs =
          .ok (.dict [("success", .bool true),
            ("message", .str "Service executed successfully"), ("data", r)])) ∧
      (∀ r, f sargs = .ok r → r ≠ .null → r.isDict = true → r.hasKey "success" = true →
        ex.execute_platform_service name sargs = .ok r) := by
  intro ex name f sargs hget
  refine ⟨?_, ?_, ?_, ?_⟩
  · intro e hf
    rw [Executor.execute_platform_service, hget]
    dsimp only
    rw [hf]
  · intro hf
    rw [Executor.execute_platform_service, hget]
    dsimp only
    rw [hf]
    dsimp only
    rw [if_pos rfl]
  · intro r hf hr hcond
    rw [Executor.execute_platform_service, hget]
    dsimp only
    rw [hf]
    dsimp only
    rw [if_neg hr, if_pos hcond]
  · intro r hf hr hd hk
    rw [Executor.execute_platform_service, hget]
    dsimp only
    rw [hf]
    dsimp only
    rw [if_neg hr, if_neg (by simp [hd, hk])]

/-- Witness for C5 at four concrete backends: one that raises, one that
returns `None`, one that returns a bare integer, and one that returns a dict
carrying only a `success` key. -/
theorem C5_platform_service_normalization_witness :
    Executor.execute_platform_service
        ⟨{ tools := [] }, [("svc", some (fun _ => .error "boom"))], []⟩ "svc" [] =
      .ok (.dict [("success", .bool false),
        ("message", .str "Service execution failed: boom"), ("data", .null)]) ∧
    Executor.execute_platform_service
        ⟨{ tools := [] }, [("svc", some (fun _ => .ok .null))], []⟩ "svc" [] =
      .ok (.dict [("success", .bool false),
        ("message", .str "Service returned None"), ("data", .null)]) ∧
    Executor.execute_platform_service
        ⟨{ tools := [] }, [("svc", some (fun _ => .ok (.int 42)))], []⟩ "svc" [] =
      .ok (.dict [("success", .bool true),
        ("message", .str "Service executed successfully"), ("data", .int 42)]) ∧
    Executor.execute_platform_service
        ⟨{ tools := [] },
          [("svc", some (fun _ => .ok (.dict [("success", .bool false)])))], []⟩
        "svc" [] = .ok (.dict [("success", .bool false)]) :=
  ⟨(C5_platform_service_normalization
      ⟨{ tools := [] }, [("svc", some (fun _ => .error "boom"))], []⟩ "svc"
      (fun _ => .error "boom") [] rfl).1 "boom" rfl,
   (C5_platform_service_normalization
      ⟨{ tools := [] }, [("svc", some (fun _ => .ok .null))], []⟩ "svc"
      (fun _ => .ok .null) [] rfl).2.1 rfl,
   (C5_platform_service_normalization
      ⟨{ tools := [] }, [("svc", some (fun _ => .ok (.int 42)))], []⟩ "svc"
      (fun _ => .ok (.int 42)) [] rfl).2.2.1 (.int 42) rfl (by decide) (by decide),
   (C5_platform_service_normalization
      ⟨{ tools := [] },
        [("svc", some (fun _ => .ok (.dict [("success", .bool false)])))], []⟩ "svc"
      (fun _ => .ok (.dict [("success", .bool false)])) [] rfl).2.2.2
     (.dict [("success", .bool false)]) rfl (by decide) (by decide) (by decide)⟩

/-- Witness for C9: inject an operation under `ghost_svc` (not exported by
the services module), rebuild via `register_custom_tool`, then invoke the
tool targeting it. -/
theorem C9_custom_service_discarded_by_rebuild_witness :
    (alistGet? ghostRebuilt.service_cache "ghost_svc" ≠
      some (some (fun _ => .ok .null))) ∧
    (∃ ex2 v,
      ghostRebuilt.execute_tool_call "alice"
          (.dict [("tool", .str "ghost"), ("parameters", .dict [("q", .int 1)])]) 0 =
        .ok (ex2, v) ∧
      v.get "success" = .bool false ∧
      v.get "message" =
        .str "Tool execution failed: Platform service not available: ghost_svc" ∧
      ex2.historyLength "alice" = ghostRebuilt.historyLength "alice" + 1) :=
  ⟨C9_custom_service_discarded_by_rebuild.1 noServices emptyExecutor "ghost_svc"
      (fun _ => .ok .null) ghost_tool_def rfl (fun _ => .ok .null),
   C9_custom_service_discarded_by_rebuild.2 noServices emptyExecutor "ghost_svc"
      (fun _ => .ok .null) ghost_tool_def ghost_tool_def "alice" [("q", .int 1)] 0
      ghostRebuilt [("q", .int 1)] rfl (by decide) (by decide) (by decide) rfl rfl rfl⟩

/-- **C8.**  Registering a descriptor under an existing name replaces the old
one without error — subsequent lookups, and hence subsequent invocations,
see only the new descriptor (conjuncts 1-2); registering through the engine
rebuilds the operation cache, so the descriptor's backend operation becomes
reachable exactly as the services module exports it (conjunct 3), and an
invocation of the registered name is driven by the new descriptor's mapping,
service and formatter end to end (conjunct 4). -/
theorem C8_register_replaces :
    (∀ (r : ToolRegistry) (td : ToolDefinition),
      (r.register_tool td).get_tool td.tool = some td) ∧
    (∀ (r : ToolRegistry) (td : ToolDefinition) (name : String),
      name ≠ td.tool → (r.register_tool td).get_tool name = r.get_tool name) ∧
    (∀ (db_services : ServicesModule) (ex : Executor) (td : ToolDefinition),
      alistGet? (Executor.register_custom_tool db_services ex td).service_cache
        td.service = some (db_services td.service)) ∧
    (∀ (db_services : ServicesModule) (ex : Executor) (td : ToolDefinition)
        (agent : String) (params : List (String × Value)) (ts : Nat)
        (ex1 : Executor) (args : List (String × Value)) (db_result : Value),
      agent ≠ "" → td.tool ≠ "" → params ≠ [] →
      (Executor.register_custom_tool db_services ex td).build_service_arguments
          agent td params = (ex1, .ok args) →
      ex1.execute_platform_service td.service args = .ok db_result →
      ∃ ex2,
        (Executor.register_custom_tool db_services ex td).execute_tool_call agent
            (.dict [("tool", .str td.tool), ("parameters", .dict params)]) ts =
          .ok (ex2, td.response_formatter db_result)) := by
  refine ⟨?_, ?_, ?_, ?_⟩
  · intro r td
    exact alistGet?_insert_self r.tools td.tool td
  · intro r td name hne
    exact alistGet?_insert_ne td.tool name hne r.tools td
  · intro db_services ex td
    refine alistGet?_map_pair db_services _ td.service ?_
    exact List.mem_map.2 ⟨(td.tool, td), alistInsert_mem_self ex.registry.tools td.tool td,
      rfl⟩
  · intro db_services ex td agent params ts ex1 args db_result hagent htool hparams
      hargs hsvc
    have hempty : params.isEmpty = false := by simpa using hparams
    have htools : (Value.str td.tool).truthy = true := by
      simp [Value.truthy, htool]
    have hget :
        (Executor.register_custom_tool db_services ex td).registry.get_tool td.tool =
          some td :=
      alistGet?_insert_self ex.registry.tools td.tool td
    have hok := execute_tool_call_ok_of_dict
      (Executor.register_custom_tool db_services ex td) agent
      (.dict [("tool", .str td.tool), ("parameters", .dict params)]) ts rfl
    rw [hok]
    have h1 : Value.get (.dict [("tool", .str td.tool), ("parameters", .dict params)])
        "tool" = .str td.tool := rfl
    have h2 : Value.getOr (.dict [("tool", .str td.tool), ("parameters", .dict params)])
        "parameters" (.dict []) = .dict params := rfl
    have hptruthy : (Value.dict params).truthy = true := by
      simp [Value.truthy, hempty]
    simp only [Executor.executeToolCallDict, h1, h2, htools, hptruthy, Value.isStr,
      Value.isDict, Value.asStr, Value.dfields, Bool.not_true, Bool.or_self,
      Bool.false_or, Bool.or_false, Bool.false_eq_true, if_false, hget]
    rw [if_neg hagent]
    rw [hargs]
    dsimp only
    rw [hsvc]
    exact ⟨_, rfl⟩

/-- Witness for C8: registering a tool named `search` over the empty registry,
then checking replacement, cache rebuild and an end-to-end invocation. -/
theorem C8_register_replaces_witness :
    (({ tools := [] } : ToolRegistry).register_tool search_def).get_tool "search" =
        some search_def ∧
    (({ tools := [] } : ToolRegistry).register_tool search_def).get_tool "create_post" =
        ({ tools := [] } : ToolRegistry).get_tool "create_post" ∧
    (∃ ex2,
      (Executor.register_custom_tool
          (fun n => if n = "svc_ping" then
            some (fun args => .ok (.dict [("success", .bool true),
              ("message", .str "pong"), ("data", dictGet args "q")]))
          else none)
          ⟨{ tools := [] }, [], []⟩
          { tool := "ping", description := "ping", parameters := [],
            service := "svc_ping", arguments_mapping := [("q", "q")],
            context_params := [], response_formatter := id }).execute_tool_call
          "alice" (.dict [("tool", .str "ping"),
            ("parameters", .dict [("q", .int 5)])]) 0 =
        .ok (ex2, id (Value.dict [("success", .bool true),
          ("message", .str "pong"), ("data", .int 5)]))) :=
  ⟨C8_register_replaces.1 _ _,
   C8_register_replaces.2.1 _ _ _ (by decide),
   C8_register_replaces.2.2.2 _ _ _ "alice" [("q", .int 5)] 0 _ [("q", .int 5)] _
     (by decide) (by decide) (by decide) rfl rfl⟩

/-- Witness for C7: a two-request batch whose first request names an unknown
tool (its envelope is a failure) still executes and returns the second. -/
theorem C7_batch_sequential_independent_witness :
    (∃ exN results,
      Executor.execute_tool_calls ⟨{ tools := [] }, [], []⟩ ["alice", "bob"]
          [.dict [("tool", .str "nope"), ("parameters", .dict [("x", .int 1)])],
           .dict [("tool", .str "also_nope"), ("parameters", .dict [("y", .int 2)])]]
          0 = .ok (exN, results) ∧
        results.length = min 2 2) ∧
    (∃ ex1 r,
      Executor.execute_tool_call ⟨{ tools := [] }, [], []⟩ "alice"
          (.dict [("tool", .str "nope"), ("parameters", .dict [("x", .int 1)])]) 0 =
        .ok (ex1, r) ∧
      Executor.execute_tool_calls ⟨{ tools := [] }, [], []⟩ ["alice", "bob"]
          [.dict [("tool", .str "nope"), ("parameters", .dict [("x", .int 1)])],
           .dict [("tool", .str "also_nope"), ("parameters", .dict [("y", .int 2)])]]
          0 =
        (ex1.execute_tool_calls ["bob"]
            [.dict [("tool", .str "also_nope"), ("parameters", .dict [("y", .int 2)])]]
            1).map (fun p => (p.1, r :: p.2))) :=
  ⟨C7_batch_sequential_independent.1 _ _ _ 0 (by decide),
   C7_batch_sequential_independent.2 _ "alice" _ ["bob"] _ 0 (by decide)⟩

/-- Witness for C4 at concrete inputs. -/
theorem C4_resolve_target_post_id_witness :
    (ActionTracker.mk []).resolve_context_value "alice" "target_post_id"
        [("x", .int 1)] = .null ∧
    (ActionTracker.mk []).resolve_context_value "alice" "target_post_id"
        [("title", .str "T")] =
      (ActionTracker.mk []).resolve_post_id_by_title "alice" (.str "T") ∧
    (ActionTracker.mk []).resolve_context_value "alice" "bogus_param" [] = .null :=
  ⟨C4_resolve_target_post_id.1 _ _ _ (by decide),
   C4_resolve_target_post_id.2.1 _ _ _ (by decide),
   C4_resolve_target_post_id.2.2.2 _ _ _ _ (by decide) (by decide) (by decide)⟩

end Agora
